import Mathlib

/-!
# Verification of the triage decision normalizer (`src/triage-api-rag/agent.py`)

Shallow embedding of the deterministic enrichment/normalization pipeline of
`agent.py`: stable dedupe-key derivation (`_stable_key`), runbook resolution,
command extraction/validation (`_coerce_list`, `_looks_like_cmd`,
`_normalize_cmds`), priority classification (`_normalize_priority`,
`_deterministic_priority`), and the hardening block of `triage`.

Python values reachable by the pipeline are embedded as `JVal` (JSON-like
values; Python dicts become insertion-ordered association lists).  Modelling
choices, each noted at the definition it concerns:
* JSON / Python number literals are restricted to integers (floating point is
  out of scope for this embedding);
* `str.lower` / `str.upper` are ASCII case maps (every keyword table in the
  source is ASCII);
* `urllib.parse.urlsplit` is embedded without the WHATWG control-character
  stripping of very recent CPython;
* operations that can raise in Python (`.get` on a non-mapping, `str.join`
  over non-strings, `.upper()` on a non-string) return `Except PyErr`.
-/

/-- Embedded Python/JSON value.  Python dicts are insertion-ordered
association lists; numbers are restricted to integers in this embedding. -/
inductive JVal where
  | null : JVal
  | bool : Bool → JVal
  | num : Int → JVal
  | str : String → JVal
  | arr : List JVal → JVal
  | obj : List (String × JVal) → JVal

/-- A Python exception class, as far as the pipeline can observe one. -/
inductive PyErr where
  | attributeError : PyErr
  | typeError : PyErr
deriving DecidableEq

/-- Decidable equality for `Except` results (not derived in core). -/
instance {e a : Type} [DecidableEq e] [DecidableEq a] : DecidableEq (Except e a) := fun x y =>
  match x, y with
  | .ok u, .ok v =>
    if h : u = v then isTrue (by rw [h]) else isFalse (by intro hc; cases hc; exact h rfl)
  | .ok _, .error _ => isFalse (by intro hc; cases hc)
  | .error _, .ok _ => isFalse (by intro hc; cases hc)
  | .error u, .error v =>
    if h : u = v then isTrue (by rw [h]) else isFalse (by intro hc; cases hc; exact h rfl)

/-- A Python dict of JSON-ish values (e.g. the incoming LogEvent). -/
abbrev PyDict := List (String × JVal)

/-- Python truthiness of an embedded value. -/
def pyTruthy : JVal → Bool
  | .null => false
  | .bool b => b
  | .num n => n != 0
  | .str s => s ≠ ""
  | .arr xs => ¬ xs.isEmpty
  | .obj kvs => ¬ kvs.isEmpty

/-- Python `a or b` on embedded values. -/
def pyOr (a b : JVal) : JVal := if pyTruthy a then a else b

/-- Python `d.get(k)` on a dict: the stored value, or `None` when absent. -/
def pyGet (d : PyDict) (k : String) : JVal := (d.lookup k).getD .null

/-- Python `d.get(k, dflt)` on a dict. -/
def pyGetD (d : PyDict) (k : String) (dflt : JVal) : JVal := (d.lookup k).getD dflt

/-- Python `x.get(k)` where `x` is an arbitrary value: raises
`AttributeError` unless `x` is a dict. -/
def pyDictGet (x : JVal) (k : String) : Except PyErr JVal :=
  match x with
  | .obj kvs => .ok ((kvs.lookup k).getD .null)
  | _ => .error .attributeError

/-- Python `d.setdefault(k, v)`: insertion appends at the end of the dict. -/
def pySetdefault (d : PyDict) (k : String) (v : JVal) : PyDict :=
  if (d.lookup k).isSome then d else d ++ [(k, v)]

/-- A string used where Python would `" ".join` it or call `.upper()`:
raises `TypeError`/`AttributeError` on a non-string. -/
def pyAsStr : JVal → Except PyErr String
  | .str s => .ok s
  | _ => .error .typeError

/-- ASCII lower-casing (the keyword tables of the source are all ASCII). -/
def pyLower (s : String) : String := ⟨s.data.map Char.toLower⟩

/-- ASCII upper-casing. -/
def pyUpper (s : String) : String := ⟨s.data.map Char.toUpper⟩

/-- The characters Python `str.strip()` removes (ASCII whitespace). -/
def isPyWs (c : Char) : Bool :=
  c = ' ' ∨ c = '\t' ∨ c = '\n' ∨ c = '\r' ∨ c = '\x0b' ∨ c = '\x0c'

/-- Python `s.strip()`. -/
def pyStrip (s : String) : String :=
  ⟨((s.data.dropWhile isPyWs).reverse.dropWhile isPyWs).reverse⟩

/-- Python `s.rstrip("/")`. -/
def pyRstripSlash (s : String) : String :=
  ⟨(s.data.reverse.dropWhile (· = '/')).reverse⟩

/-- Worker for `pySplitWs`: current (reversed) token, remaining input. -/
def splitWsGo : List Char → List Char → List String
  | [], cur => if cur.isEmpty then [] else [⟨cur.reverse⟩]
  | c :: cs, cur =>
    if isPyWs c then
      if cur.isEmpty then splitWsGo cs [] else (⟨cur.reverse⟩ : String) :: splitWsGo cs []
    else splitWsGo cs (c :: cur)

/-- Python `s.split()` (split on whitespace runs, no empty pieces). -/
def pySplitWs (s : String) : List String := splitWsGo s.data []

/-- Worker for `splitAnyOf`. -/
def splitAnyGo (seps : List Char) : List Char → List Char → List String
  | [], cur => [⟨cur.reverse⟩]
  | c :: cs, cur =>
    if seps.contains c then (⟨cur.reverse⟩ : String) :: splitAnyGo seps cs []
    else splitAnyGo seps cs (c :: cur)

/-- Split a string at every occurrence of one of `seps`.  `re.split` on a
`[..]+` class differs only by not emitting the interior empty pieces; the
source always filters the pieces through `strip`/non-emptiness right after,
so the two agree where used. -/
def splitAnyOf (seps : List Char) (s : String) : List String :=
  splitAnyGo seps s.data []

/-- Python `needle in hay` for strings: contiguous substring. -/
def pyInStr (needle hay : String) : Bool := decide (needle.data <:+: hay.data)

/-- Escape one character the way `json.dumps(..., ensure_ascii=False)` does. -/
def jsonEscapeChar (c : Char) : List Char :=
  if c = '"' then ['\\', '"']
  else if c = '\\' then ['\\', '\\']
  else if c = '\n' then ['\\', 'n']
  else if c = '\r' then ['\\', 'r']
  else if c = '\t' then ['\\', 't']
  else if c = '\x08' then ['\\', 'b']
  else if c = '\x0c' then ['\\', 'f']
  else if c.toNat < 32 then
    ['\\', 'u', '0', '0',
     (if c.toNat / 16 < 10 then Char.ofNat (48 + c.toNat / 16) else Char.ofNat (87 + c.toNat / 16)),
     (if c.toNat % 16 < 10 then Char.ofNat (48 + c.toNat % 16) else Char.ofNat (87 + c.toNat % 16))]
  else [c]

/-- JSON string-literal body. -/
def jsonEscape (s : String) : String := ⟨s.data.flatMap jsonEscapeChar⟩

/-- Lexicographic code-point comparison of character lists (Python's
string ordering). -/
def charListLt : List Char → List Char → Bool
  | [], [] => false
  | [], _ :: _ => true
  | _ :: _, [] => false
  | a :: as, b :: bs =>
    if a.toNat < b.toNat then true
    else if b.toNat < a.toNat then false
    else charListLt as bs

/-- Python `a < b` on strings. -/
def strLt (a b : String) : Bool := charListLt a.data b.data

/-- Stable insertion sort of dict entries by key, as `sort_keys=True` does. -/
def sortKvsInsert (x : String × JVal) : List (String × JVal) → List (String × JVal)
  | [] => [x]
  | y :: ys => if strLt x.1 y.1 then x :: y :: ys else y :: sortKvsInsert x ys

/-- Sort dict entries by key (Python `sorted` over code points). -/
def sortKvs : List (String × JVal) → List (String × JVal)
  | [] => []
  | x :: xs => sortKvsInsert x (sortKvs xs)

/-- Membership through `sortKvsInsert`. -/
theorem mem_sortKvsInsert {y x : String × JVal} {l : List (String × JVal)}
    (h : y ∈ sortKvsInsert x l) : y = x ∨ y ∈ l := by
  induction l with
  | nil => simpa [sortKvsInsert] using h
  | cons z zs ih =>
    simp only [sortKvsInsert] at h
    split at h
    · simpa using h
    · rcases List.mem_cons.mp h with h | h
      · exact Or.inr (by simp [h])
      · rcases ih h with h | h
        · exact Or.inl h
        · exact Or.inr (List.mem_cons_of_mem _ h)

/-- Membership through `sortKvs`. -/
theorem mem_sortKvs {y : String × JVal} {l : List (String × JVal)}
    (h : y ∈ sortKvs l) : y ∈ l := by
  induction l with
  | nil => simp [sortKvs] at h
  | cons z zs ih =>
    rcases mem_sortKvsInsert h with h | h
    · simp [h]
    · exact List.mem_cons_of_mem _ (ih h)

/-- Simplified Python `repr` of a string literal (single-quoted; escapes
backslash, quote and the common control characters). -/
def reprStrLit (s : String) : String :=
  "'" ++ ⟨s.data.flatMap fun c =>
    if c = '\\' then ['\\', '\\']
    else if c = '\'' then ['\\', '\'']
    else if c = '\n' then ['\\', 'n']
    else if c = '\r' then ['\\', 'r']
    else if c = '\t' then ['\\', 't']
    else [c]⟩ ++ "'"

mutual

/-- Size of an embedded value (fuel bound for the serializers). -/
def jvalSize : JVal → Nat
  | .null => 1
  | .bool _ => 1
  | .num _ => 1
  | .str _ => 1
  | .arr xs => 1 + jvalArrSize xs
  | .obj kvs => 1 + jvalObjSize kvs

/-- See `jvalSize`. -/
def jvalArrSize : List JVal → Nat
  | [] => 0
  | x :: xs => jvalSize x + jvalArrSize xs

/-- See `jvalSize`. -/
def jvalObjSize : List (String × JVal) → Nat
  | [] => 0
  | kv :: kvs => jvalSize kv.2 + 1 + jvalObjSize kvs

end

/-- Fuel-indexed worker for `pyRepr` (structural recursion on the fuel so
the definition reduces in the kernel; `sizeOf` always bounds the needed
depth, so the out-of-fuel branch is unreachable). -/
def pyReprF : Nat → JVal → String
  | 0, _ => ""
  | _ + 1, .null => "None"
  | _ + 1, .bool b => if b then "True" else "False"
  | _ + 1, .num n => toString n
  | _ + 1, .str s => reprStrLit s
  | fuel + 1, .arr xs =>
    "[" ++ String.intercalate ", " (xs.map (pyReprF fuel)) ++ "]"
  | fuel + 1, .obj kvs =>
    "\x7b" ++ String.intercalate ", "
      (kvs.map fun kv => reprStrLit kv.1 ++ ": " ++ pyReprF fuel kv.2) ++ "\x7d"

/-- Python `repr` of an embedded value (containers rendered Python-style). -/
def pyRepr (v : JVal) : String := pyReprF (jvalSize v) v

/-- Python `str(x)` of an embedded value. -/
def pyStr : JVal → String
  | .str s => s
  | v => pyRepr v

/-- Entries of a dict as serialized by `json.dumps`, honouring `sort_keys`. -/
def dumpsEntries (sk : Bool) (kvs : List (String × JVal)) : List (String × JVal) :=
  if sk then sortKvs kvs else kvs

/-- Membership through `dumpsEntries`. -/
theorem mem_dumpsEntries {sk : Bool} {kv : String × JVal} {kvs : List (String × JVal)}
    (h : kv ∈ dumpsEntries sk kvs) : kv ∈ kvs := by
  unfold dumpsEntries at h
  split at h
  · exact mem_sortKvs h
  · exact h

/-- Fuel-indexed worker for `pyDumps` (structural recursion on the fuel so
the definition reduces in the kernel; `sizeOf` always bounds the needed
depth, so the out-of-fuel branch is unreachable). -/
def pyDumpsF : Nat → Bool → JVal → String
  | 0, _, _ => ""
  | _ + 1, _, .null => "null"
  | _ + 1, _, .bool b => if b then "true" else "false"
  | _ + 1, _, .num n => toString n
  | _ + 1, _, .str s => "\"" ++ jsonEscape s ++ "\""
  | fuel + 1, sk, .arr xs =>
    "[" ++ String.intercalate ", " (xs.map (pyDumpsF fuel sk)) ++ "]"
  | fuel + 1, sk, .obj kvs =>
    "\x7b" ++ String.intercalate ", "
      ((dumpsEntries sk kvs).map fun kv =>
        "\"" ++ jsonEscape kv.1 ++ "\": " ++ pyDumpsF fuel sk kv.2) ++ "\x7d"

/-- `json.dumps(v, ensure_ascii=False)`, with Python's default separators
`", "` and `": "`; `sk` is the `sort_keys` flag (recursive over all
nesting levels, as in CPython). -/
def pyDumps (sk : Bool) (v : JVal) : String := pyDumpsF (jvalSize v) sk v

/-- JSON whitespace skipping (`json.loads` accepts space, tab, LF, CR). -/
def skipJWs (cs : List Char) : List Char :=
  cs.dropWhile fun c => c = ' ' ∨ c = '\t' ∨ c = '\n' ∨ c = '\r'

/-- The `{` / `}` delimiter characters. -/
def lbChar : Char := Char.ofNat 123

/-- See `lbChar`. -/
def rbChar : Char := Char.ofNat 125

/-- Hex digit value of a character, 16 otherwise. -/
def hexVal (c : Char) : Nat :=
  if '0' ≤ c ∧ c ≤ '9' then c.toNat - 48
  else if 'a' ≤ c ∧ c ≤ 'f' then c.toNat - 87
  else if 'A' ≤ c ∧ c ≤ 'F' then c.toNat - 55
  else 16

/-- JSON integer literal (this embedding rejects floats, `NaN`/`Infinity`;
a rejected literal makes the whole `json.loads` fail, which in the one use
site `_coerce_list` only diverts to the delimiter-split fallback). -/
def parseJNum (cs : List Char) : Option (JVal × List Char) :=
  let (neg, cs1) := if cs.take 1 = ['-'] then (true, cs.drop 1) else (false, cs)
  let digits := cs1.takeWhile Char.isDigit
  let rest := cs1.drop digits.length
  if digits = [] then none
  else if digits.length > 1 ∧ digits.take 1 = ['0'] then none
  else if rest.take 1 = ['.'] ∨ rest.take 1 = ['e'] ∨ rest.take 1 = ['E'] then none
  else
    let n : Int := digits.foldl (fun a c => a * 10 + (c.toNat - 48)) 0
    some (.num (if neg then -n else n), rest)

mutual

/-- JSON string body after the opening quote; `acc` is reversed. -/
def parseJStr : Nat → List Char → List Char → Option (String × List Char)
  | 0, _, _ => none
  | _ + 1, _, [] => none
  | fuel + 1, acc, c :: rest =>
    if c = '"' then some (⟨acc.reverse⟩, rest)
    else if c = '\\' then
      match rest with
      | [] => none
      | e :: rest2 =>
        if e = 'u' then
          let hx := rest2.take 4
          if hx.length = 4 ∧ hx.all (fun h => hexVal h < 16) then
            parseJStr fuel (Char.ofNat (hx.foldl (fun a h => a * 16 + hexVal h) 0) :: acc)
              (rest2.drop 4)
          else none
        else if e = '"' then parseJStr fuel ('"' :: acc) rest2
        else if e = '\\' then parseJStr fuel ('\\' :: acc) rest2
        else if e = '/' then parseJStr fuel ('/' :: acc) rest2
        else if e = 'b' then parseJStr fuel ('\x08' :: acc) rest2
        else if e = 'f' then parseJStr fuel ('\x0c' :: acc) rest2
        else if e = 'n' then parseJStr fuel ('\n' :: acc) rest2
        else if e = 'r' then parseJStr fuel ('\r' :: acc) rest2
        else if e = 't' then parseJStr fuel ('\t' :: acc) rest2
        else none
    else parseJStr fuel (c :: acc) rest

/-- One JSON value. -/
def parseJVal : Nat → List Char → Option (JVal × List Char)
  | 0, _ => none
  | fuel + 1, cs =>
    match cs with
    | [] => none
    | c :: rest =>
      if c = 'n' then
        if rest.take 3 = ['u', 'l', 'l'] then some (.null, rest.drop 3) else none
      else if c = 't' then
        if rest.take 3 = ['r', 'u', 'e'] then some (.bool true, rest.drop 3) else none
      else if c = 'f' then
        if rest.take 4 = ['a', 'l', 's', 'e'] then some (.bool false, rest.drop 4) else none
      else if c = '"' then
        (parseJStr fuel [] rest).map fun sr => (.str sr.1, sr.2)
      else if c = '[' then
        match skipJWs rest with
        | ']' :: rest2 => some (.arr [], rest2)
        | cs2 => (parseJArr fuel cs2).map fun ar => (.arr ar.1, ar.2)
      else if c = lbChar then
        match skipJWs rest with
        | b :: rest2 => if b = rbChar then some (.obj [], rest2)
                        else (parseJObj fuel (b :: rest2)).map fun kr => (.obj kr.1, kr.2)
        | [] => none
      else parseJNum (c :: rest)

/-- Comma-separated JSON array elements (after any leading whitespace). -/
def parseJArr : Nat → List Char → Option (List JVal × List Char)
  | 0, _ => none
  | fuel + 1, cs => do
    let (v, r1) ← parseJVal fuel cs
    match skipJWs r1 with
    | ',' :: r2 => (parseJArr fuel (skipJWs r2)).map fun ar => (v :: ar.1, ar.2)
    | ']' :: r2 => some ([v], r2)
    | _ => none

/-- Comma-separated JSON object members. -/
def parseJObj : Nat → List Char → Option (List (String × JVal) × List Char)
  | 0, _ => none
  | fuel + 1, cs => do
    let cs ← match cs with
             | '"' :: r => some r
             | _ => none
    let (k, r1) ← parseJStr fuel [] cs
    let r2 ← match skipJWs r1 with
             | ':' :: r => some r
             | _ => none
    let (v, r3) ← parseJVal fuel (skipJWs r2)
    match skipJWs r3 with
    | ',' :: r4 => (parseJObj fuel (skipJWs r4)).map fun kr => ((k, v) :: kr.1, kr.2)
    | b :: r4 => if b = rbChar then some ([(k, v)], r4) else none
    | [] => none

end

/-- `json.loads`: parse a full document, allowing surrounding whitespace. -/
def jsonLoads (s : String) : Option JVal :=
  match parseJVal (3 * s.data.length + 16) (skipJWs s.data) with
  | some (v, rest) => if skipJWs rest = [] then some v else none
  | none => none

/-- UTF-8 encoding of one character, as byte values. -/
def utf8Bytes (c : Char) : List Nat :=
  let n := c.toNat
  if n < 128 then [n]
  else if n < 2048 then [192 ||| (n >>> 6), 128 ||| (n &&& 63)]
  else if n < 65536 then
    [224 ||| (n >>> 12), 128 ||| ((n >>> 6) &&& 63), 128 ||| (n &&& 63)]
  else
    [240 ||| (n >>> 18), 128 ||| ((n >>> 12) &&& 63),
     128 ||| ((n >>> 6) &&& 63), 128 ||| (n &&& 63)]

/-- `s.encode("utf-8")` as a byte list. -/
def strBytes (s : String) : List Nat := s.data.flatMap utf8Bytes

/-- 32-bit rotate left on a value `< 2^32`. -/
def rotl32 (x n : Nat) : Nat := ((x <<< n) ||| (x >>> (32 - n))) % 4294967296

/-- SHA-1 message padding: `0x80`, zeros, 64-bit big-endian bit length. -/
def sha1Pad (msg : List Nat) : List Nat :=
  let len := msg.length
  msg ++ 128 :: List.replicate ((119 - len % 64) % 64) 0
      ++ (List.range 8).map fun i => ((len * 8) >>> ((7 - i) * 8)) % 256

/-- Fuel-indexed worker for `chunk64` (the input length bounds the number
of blocks, so the out-of-fuel branch is unreachable). -/
def chunk64F : Nat → List Nat → List (List Nat)
  | 0, _ => []
  | fuel + 1, l => if l = [] then [] else l.take 64 :: chunk64F fuel (l.drop 64)

/-- Split a byte list into 64-byte blocks. -/
def chunk64 (l : List Nat) : List (List Nat) := chunk64F l.length l

/-- The 16 initial 32-bit words of one block (big-endian). -/
def blockWords (b : List Nat) : List Nat :=
  (List.range 16).map fun i =>
    b.getD (4 * i) 0 * 16777216 + b.getD (4 * i + 1) 0 * 65536 +
    b.getD (4 * i + 2) 0 * 256 + b.getD (4 * i + 3) 0

/-- SHA-1 message schedule: extend 16 words to 80. -/
def sha1Ws (w16 : List Nat) : List Nat :=
  (List.range 64).foldl (fun w _ =>
    w ++ [rotl32 (Nat.xor (Nat.xor (w.getD (w.length - 3) 0) (w.getD (w.length - 8) 0))
           (Nat.xor (w.getD (w.length - 14) 0) (w.getD (w.length - 16) 0))) 1]) w16

/-- SHA-1 round function. -/
def sha1F (t b c d : Nat) : Nat :=
  if t < 20 then Nat.lor (Nat.land b c) (Nat.land (Nat.xor b 4294967295) d)
  else if t < 40 then Nat.xor (Nat.xor b c) d
  else if t < 60 then Nat.lor (Nat.lor (Nat.land b c) (Nat.land b d)) (Nat.land c d)
  else Nat.xor (Nat.xor b c) d

/-- SHA-1 round constants. -/
def sha1K (t : Nat) : Nat :=
  if t < 20 then 1518500249
  else if t < 40 then 1859775393
  else if t < 60 then 2400959708
  else 3395469782

/-- SHA-1 working state. -/
abbrev Sha1St := Nat × Nat × Nat × Nat × Nat

/-- The 80 SHA-1 rounds over one block's schedule. -/
def sha1Rounds (h : Sha1St) (ws : List Nat) : Sha1St :=
  (List.range 80).foldl (fun st t =>
    match st with
    | (a, b, c, d, e) =>
      ((rotl32 a 5 + sha1F t b c d + e + sha1K t + ws.getD t 0) % 4294967296,
       a, rotl32 b 30, c, d)) h

/-- Process one 64-byte block. -/
def sha1Block (h : Sha1St) (block : List Nat) : Sha1St :=
  match h, sha1Rounds h (sha1Ws (blockWords block)) with
  | (h0, h1, h2, h3, h4), (a, b, c, d, e) =>
    ((h0 + a) % 4294967296, (h1 + b) % 4294967296, (h2 + c) % 4294967296,
     (h3 + d) % 4294967296, (h4 + e) % 4294967296)

/-- Lowercase hex digit. -/
def lowHexChar (d : Nat) : Char :=
  if d < 10 then Char.ofNat (48 + d) else Char.ofNat (87 + d)

/-- A 32-bit word as 8 lowercase hex characters. -/
def word32Hex (w : Nat) : List Char :=
  (List.range 8).map fun i => lowHexChar ((w >>> ((7 - i) * 4)) % 16)

/-- `hashlib.sha1(msg).hexdigest()`. -/
def sha1Hex (msg : List Nat) : String :=
  let f := (chunk64 (sha1Pad msg)).foldl sha1Block
      (1732584193, 4023233417, 2562383102, 271733878, 3285377520)
  ⟨[f.1, f.2.1, f.2.2.1, f.2.2.2.1, f.2.2.2.2].flatMap word32Hex⟩

/-- Characters `urllib.parse.quote` leaves unescaped with the default
`safe="/"`: ASCII alphanumerics, `_.-~` and `/` (as byte values). -/
def quoteSafeByte (b : Nat) : Bool :=
  (65 ≤ b ∧ b ≤ 90) ∨ (97 ≤ b ∧ b ≤ 122) ∨ (48 ≤ b ∧ b ≤ 57) ∨
  b = 95 ∨ b = 46 ∨ b = 45 ∨ b = 126 ∨ b = 47

/-- Uppercase hex digit (as used by `quote`). -/
def upHexChar (d : Nat) : Char :=
  if d < 10 then Char.ofNat (48 + d) else Char.ofNat (55 + d)

/-- `urllib.parse.quote(s)` with the default `safe="/"`. -/
def pyQuote (s : String) : String :=
  ⟨(strBytes s).flatMap fun b =>
    if quoteSafeByte b then [Char.ofNat b] else ['%', upHexChar (b / 16), upHexChar (b % 16)]⟩

/-- Characters allowed in a URL scheme after the initial letter. -/
def schemeChar (c : Char) : Bool := c.isAlpha ∨ c.isDigit ∨ c = '+' ∨ c = '-' ∨ c = '.'

/-- Result of `urllib.parse.urlsplit`. -/
structure UrlSplit where
  scheme : String
  netloc : String
  path : String
  query : String
  fragment : String
deriving DecidableEq

/-- The part of `cs` before the first occurrence of `sep` (all of `cs`
when `sep` does not occur). -/
def beforeFirst (cs : List Char) (sep : Char) : List Char := cs.takeWhile (· ≠ sep)

/-- The part of `cs` after the first occurrence of `sep` (empty when `sep`
does not occur, like the second half of Python's `split(sep, 1)` defaulted
to `""`). -/
def afterFirst (cs : List Char) (sep : Char) : List Char :=
  if cs.contains sep then cs.drop ((cs.takeWhile (· ≠ sep)).length + 1) else []

/-- Whether `url` starts with a scheme: a `:` present, preceded by a
non-empty run of scheme characters starting with a letter. -/
def hasScheme (cs : List Char) : Bool :=
  cs.contains ':' ∧
    (let pre := cs.takeWhile (· ≠ ':')
     pre ≠ [] ∧ (pre.headD 'a').isAlpha ∧ pre.all schemeChar)

/-- `urllib.parse.urlsplit` (classic semantics, before the WHATWG
control-character stripping of very recent CPython; `allow_fragments`
true).  Scheme is recognised before `:` when it starts with a letter and
uses only scheme characters; `//` introduces the netloc, which extends to
the first `/`, `?` or `#`; then the fragment and query are split off.
Each component is computed independently (equivalent to CPython's
sequential destructuring). -/
def urlsplitFun (url : String) : UrlSplit :=
  let cs := url.data
  let scheme : String :=
    if hasScheme cs then ⟨(cs.takeWhile (· ≠ ':')).map Char.toLower⟩ else ""
  let rest := if hasScheme cs then cs.drop ((cs.takeWhile (· ≠ ':')).length + 1) else cs
  let netloc : String :=
    if rest.take 2 = ['/', '/'] then
      ⟨(rest.drop 2).takeWhile fun c => c ≠ '/' ∧ c ≠ '?' ∧ c ≠ '#'⟩
    else ""
  let rest2 :=
    if rest.take 2 = ['/', '/'] then
      (rest.drop 2).drop ((rest.drop 2).takeWhile fun c => c ≠ '/' ∧ c ≠ '?' ∧ c ≠ '#').length
    else rest
  ⟨scheme, netloc, ⟨beforeFirst (beforeFirst rest2 '#') '?'⟩,
   ⟨afterFirst (beforeFirst rest2 '#') '?'⟩, ⟨afterFirst rest2 '#'⟩⟩

/-- `_looks_like_url` of `agent.py`: scheme `http`/`https` and a non-empty
netloc.  The argument is the raw draft value; a non-string raises inside
the source's `try` and yields `False`, and `None` is replaced by `""`. -/
def looksLikeUrlJ (v : JVal) : Bool :=
  match pyOr v (.str "") with
  | .str s =>
    let u := urlsplitFun s
    (u.scheme = "http" ∨ u.scheme = "https") ∧ u.netloc ≠ ""
  | _ => false

/-- `_looks_like_url` on a string argument. -/
def looksLikeUrl (s : String) : Bool := looksLikeUrlJ (.str s)

/-- `urllib.parse.uses_relative`. -/
def usesRelative : List String :=
  ["", "ftp", "http", "gopher", "nntp", "imap", "wais", "file", "https", "shttp",
   "mms", "prospero", "rtsp", "rtspu", "sftp", "svn", "svn+ssh", "ws", "wss"]

/-- Python `s.split(sep)` for a single-character separator. -/
def splitOnChar (s : String) (sep : Char) : List String :=
  splitAnyGo [sep] s.data []

/-- The `..`/`.` segment resolution loop of `urljoin` (modern CPython:
`..` pops only when more than one segment has accumulated). -/
def resolveSegs (acc : List String) : List String → List String
  | [] => acc
  | seg :: rest =>
    if seg = ".." then
      if acc.length ≥ 2 then resolveSegs acc.dropLast rest else resolveSegs acc rest
    else if seg = "." then resolveSegs acc rest
    else resolveSegs (acc ++ [seg]) rest

/-- `urllib.parse.urlunsplit` with empty query and fragment (the only form
`urljoin` needs for a plain relative reference). -/
def urlunsplitBare (scheme netloc path : String) : String :=
  let url :=
    if netloc ≠ "" ∨ path.data.take 2 = ['/', '/'] then
      "//" ++ netloc ++ (if path ≠ "" ∧ path.data.take 1 ≠ ['/'] then "/" ++ path else path)
    else path
  if scheme ≠ "" then scheme ++ ":" ++ url else url

/-- `urllib.parse.urljoin(base, ref)` restricted to the call pattern of
`agent.py`: `ref` is one of the fixed runbook slugs — a non-empty relative
path with no `/`, `:`, `?`, `#` or dot segments.  For such references the
reference parses with the base's scheme, an empty netloc and a one-segment
path, `uses_relative ⊆ uses_netloc` makes the netloc merge unconditional,
and the reference contributes no params/query/fragment, which also makes
the params split of `urlparse` irrelevant (the base's last path segment —
the only one params are split from — is dropped whenever it is non-empty
and carries no params otherwise). -/
def urljoinSlug (base slug : String) : String :=
  if base = "" then slug
  else if slug = "" then base
  else
    let b := urlsplitFun base
    if ¬ usesRelative.contains b.scheme then slug
    else
      let baseParts := splitOnChar b.path '/'
      let baseParts := if baseParts.getLast? ≠ some "" then baseParts.dropLast else baseParts
      let segments := baseParts ++ [slug]
      let segments :=
        match segments with
        | [] => []
        | s0 :: restSegs =>
          s0 :: (restSegs.dropLast.filter (· ≠ "")) ++ restSegs.getLast?.toList
      let rp := resolveSegs [] segments
      let joined := String.intercalate "/" rp
      urlunsplitBare b.scheme b.netloc (if joined = "" then "/" else joined)

/-- The environment-derived module configuration of `agent.py`
(`RUNBOOK_BASE` is stored after its load-time `rstrip("/")`). -/
structure Config where
  RUNBOOK_BASE : String
  DEFAULT_PROJECT : String
  DEFAULT_REGION : String
  ALERT_EMAIL : String
  DEFAULT_PRIORITY : String
  CRITICAL_SERVICES : List String

/-- The configuration with every environment variable unset (the defaults
hard-coded in `agent.py`; `CRITICAL_SERVICES` parses `""` to the empty set). -/
def defaultConfig : Config :=
  ⟨"https://srujanpulathota.github.io/runbooks", "my-gcp-project", "us-central1",
   "you@gmail.com", "P2", []⟩

/-- `_stable_key`: SHA-1 of the sorted-keys serialization of the projection
onto the four stable fields (absent fields serialize as `null`), first 16
hex characters. -/
def stableKey (log : PyDict) : String :=
  let text := pyDumps true (.obj
    [("logName", pyGet log "logName"), ("resource", pyGet log "resource"),
     ("textPayload", pyGet log "textPayload"), ("jsonPayload", pyGet log "jsonPayload")])
  ⟨(sha1Hex (strBytes text)).data.take 16⟩

/-- `RUNBOOK_MAP` (a dict literal; `.items()` iterates in insertion order). -/
def runbookMap : List (String × String) :=
  [("502", "502s"), ("upstream", "upstream-failure"), ("gateway", "502s"),
   ("timeout", "timeouts"), ("db", "db-connection"), ("postgres", "db-connection"),
   ("connection", "db-connection"), ("oom", "oom"), ("memory", "oom")]

/-- `_pick_runbook_from_text`: first keyword found in the lower-cased
haystack `f"{probable} {service} {full_text}"` selects the slug. -/
def pickRunbookFromText (cfg : Config) (probable : String) (service fullText : JVal) : String :=
  let hay := pyLower (probable ++ " " ++ pyStr service ++ " " ++ pyStr fullText)
  match runbookMap.find? (fun ks => pyInStr ks.1 hay) with
  | some ks => urljoinSlug (cfg.RUNBOOK_BASE ++ "/") ks.2
  | none => urljoinSlug (cfg.RUNBOOK_BASE ++ "/") "triage-general"

/-- `_logs_deeplink` (the `needle or ""` guard is the identity on the
embedded string argument). -/
def logsDeeplink (projectId : String) (service : JVal) (needle : String)
    (minutes : Nat := 60) : String :=
  let query := "resource.type=\"cloud_run_revision\"\n" ++
    "resource.labels.service_name=\"" ++ pyStr service ++ "\"\n" ++
    "textPayload:\"" ++ (⟨needle.data.take 80⟩ : String) ++ "\""
  let params := ["query=" ++ pyQuote query, "timeRange=PT" ++ toString minutes ++ "M",
                 "project=" ++ projectId]
  "https://console.cloud.google.com/logs/query" ++ ";" ++ String.intercalate ";" params

/-- `_coerce_list`: native list / JSON-encoded list / delimited string. -/
def coerceList (x : JVal) : List String :=
  match x with
  | .arr xs => xs.map pyStr
  | .str s =>
    if pyStrip s ≠ "" then
      match jsonLoads s with
      | some (.arr js) => js.map pyStr
      | _ => ((splitAnyOf ['\n', ','] s).map pyStrip).filter (· ≠ "")
    else []
  | _ => []

/-- `ALLOWED_CMD_PREFIXES` / the alternatives of `_CMD_RX`. -/
def allowedCmdPrefixes : List String :=
  ["kubectl", "gcloud", "curl", "psql", "grep", "tail", "journalctl", "dig",
   "nslookup", "helm"]

/-- A regex word character (ASCII portion of `\w`, which is all the
allow-listed program names use at the boundary). -/
def isWordChar (c : Char) : Bool := c.isAlpha ∨ c.isDigit ∨ c = '_'

/-- `_CMD_RX.match`: case-insensitive allow-listed program name at the
start, followed by a word boundary. -/
def cmdRxMatch (s : String) : Bool :=
  allowedCmdPrefixes.any fun p =>
    (s.data.take p.length).map Char.toLower = p.data ∧
    (s.data.drop p.length = [] ∨ ¬ isWordChar ((s.data.drop p.length).headD ' '))

/-- `_looks_like_cmd`. -/
def looksLikeCmd (s : String) : Bool :=
  let t := pyStrip s
  t ≠ "" ∧ (pySplitWs t).length > 1 ∧ cmdRxMatch t

/-- The filter/dedupe loop of `_normalize_cmds` (`seen` holds the
lower-cased commands already emitted). -/
def normLoop : List String → List String → List String
  | [], _ => []
  | l :: ls, seen =>
    if looksLikeCmd l then
      if seen.contains (pyLower l) then normLoop ls seen
      else l :: normLoop ls (pyLower l :: seen)
    else normLoop ls seen

/-- The stripped non-empty fragments `_normalize_cmds` iterates over:
coerce, split each item on `;`/newline, strip, drop empties. -/
def strippedFragments (raw : JVal) : List String :=
  (((coerceList raw).flatMap (splitAnyOf [';', '\n'])).map pyStrip).filter (· ≠ "")

/-- `_normalize_cmds`. -/
def normalizeCmds (raw : JVal) : List String := normLoop (strippedFragments raw) []

/-- `_ALLOWED`. -/
def allowedPriorities : List String := ["P1", "P2", "P3", "P4", "P5"]

/-- `_normalize_priority`. -/
def normalizePriority (p : String) (dflt : String) : String :=
  if p = "" then dflt
  else
    let s := pyUpper (pyStrip p)
    if allowedPriorities.contains s then s
    else if ["1", "HIGH", "SEV1"].contains s then "P1"
    else if ["2", "SEV2"].contains s then "P2"
    else if ["3", "MEDIUM", "SEV3"].contains s then "P3"
    else if ["4", "LOW", "SEV4"].contains s then "P4"
    else if ["5", "INFO", "SEV5"].contains s then "P5"
    else dflt

/-- `P1_KEYS` (set literal; only `any`-membership is taken, so order is
irrelevant). -/
def p1Keys : List String := ["outage", "data loss", "security breach", "ransomware", "compromise"]

/-- `P2_KEYS`. -/
def p2Keys : List String :=
  ["gateway", "upstream", "502", "db unavailable", "crashloop", "oom", "timeout",
   "service unavailable"]

/-- `P3_KEYS`. -/
def p3Keys : List String := ["degraded", "intermittent", "slow", "retrying", "transient"]

/-- Python `service in CRITICAL_SERVICES` for an arbitrary service value
(a set of strings can only contain strings). -/
def svcInSet (service : JVal) (crit : List String) : Bool :=
  match service with
  | .str s => crit.contains s
  | _ => false

/-- The lower-cased haystack of `_deterministic_priority` (the
`" ".join` raises `TypeError` on a truthy non-string `textPayload`;
`probable or ""` is the identity on the embedded string argument). -/
def hayText (log : PyDict) (probable : String) : Except PyErr String :=
  (pyAsStr (pyOr (pyGet log "textPayload") (.str ""))).bind fun tp =>
  .ok (pyLower (tp ++ " " ++ pyDumps false (pyGetD log "jsonPayload" (.obj [])) ++ " " ++ probable))

/-- The producer hint of `_deterministic_priority`:
`(log.get("jsonPayload") or {}).get("priority") or (log.get("_priority_hint") or "")`
— raises `AttributeError` when `jsonPayload` is truthy but not a dict. -/
def explicitHint (log : PyDict) : Except PyErr JVal :=
  (pyDictGet (pyOr (pyGet log "jsonPayload") (.obj [])) "priority").bind fun h =>
  .ok (pyOr h (pyOr (pyGet log "_priority_hint") (.str "")))

/-- `_deterministic_priority` (the Python early-`return` chain is embedded
as nested conditionals over explicit `Except.bind`s). -/
def deterministicPriority (cfg : Config) (log : PyDict) (draft probable : String)
    (service : JVal) : Except PyErr String :=
  (hayText log probable).bind fun text =>
  (explicitHint log).bind fun hint =>
  if pyTruthy hint then .ok (normalizePriority (pyStr hint) "P3")
  else if p1Keys.any (fun k => pyInStr k text) then .ok "P1"
  else if p2Keys.any (fun k => pyInStr k text) then
    .ok (if svcInSet service cfg.CRITICAL_SERVICES then "P1" else "P2")
  else if p3Keys.any (fun k => pyInStr k text) then .ok "P3"
  else
    let draftNorm := normalizePriority draft "P3"
    if allowedPriorities.contains draftNorm then .ok draftNorm
    else
      (pyAsStr (pyOr (pyGet log "severity") (.str "DEFAULT"))).bind fun sevS =>
      let sev := pyUpper sevS
      if ["EMERGENCY", "ALERT", "CRITICAL"].contains sev then .ok "P1"
      else if sev = "ERROR" then .ok (normalizePriority cfg.DEFAULT_PRIORITY "P2")
      else if sev = "WARNING" then .ok "P3"
      else .ok "P4"

/-- The generative model's draft decision, after the pydantic parse but as
loosely typed as the normalizer tolerates (per the spec's data model the
two coercible list fields may hold any value; absent string fields are
`""`). -/
structure TriageDraft where
  severity : String
  service : String
  priority : String
  probable_cause : String
  runbook : String
  dedupe_key : String
  notify_channels : JVal
  suggest_cmds : JVal
  recommended_actions : JVal
  similar_cases : List JVal
  summary : Option String

/-- The decision object as `triage` returns it (the hardening block has
replaced the two list fields with genuine string lists; `service` keeps
whatever value the `or`-chain of line 211 produced). -/
structure DecisionOut where
  severity : String
  service : JVal
  priority : String
  probable_cause : String
  runbook : String
  dedupe_key : String
  notify_channels : List String
  suggest_cmds : List String
  recommended_actions : JVal
  similar_cases : List JVal
  summary : Option String

/-- Line 211: `decision.service or log.get("labels", {}).get("service_name")
or "unknown-service"` — the `or` short-circuits, so the (possibly raising)
labels access only runs for an empty draft service. -/
def resolveService (draft : TriageDraft) (log : PyDict) : Except PyErr JVal :=
  if draft.service ≠ "" then .ok (.str draft.service)
  else
    (pyDictGet (pyGetD log "labels" (.obj [])) "service_name").bind fun sn =>
    .ok (if pyTruthy sn then sn else .str "unknown-service")

/-- The similar-case URL scan of lines 226–233 (one case): meta must be a
dict, the `url` value truthy and well-formed (a non-string raises inside
`_looks_like_url`'s `try` and is treated as not a URL). -/
def simCaseUrl (c : JVal) : Option String :=
  match c with
  | .obj kvs =>
    match pyGet kvs "meta" with
    | .obj m =>
      let u := (m.lookup "url").getD .null
      if pyTruthy u ∧ looksLikeUrlJ u then
        match u with
        | .str s => some s
        | _ => none
      else none
    | _ => none
  | _ => none

/-- See `simCaseUrl`. -/
def collectSimUrls (cases : List JVal) : List String := cases.filterMap simCaseUrl

/-- The runbook block of `triage` (lines 222–242). -/
def resolveRunbookStage (cfg : Config) (draft : TriageDraft) (cases : List JVal)
    (service qt : JVal) : String :=
  let rb := draft.runbook
  if ¬ looksLikeUrl rb then
    let chosen := (collectSimUrls cases).head?.getD ""
    if chosen = "" then
      let chosen2 := pickRunbookFromText cfg draft.probable_cause service qt
      if ¬ looksLikeUrl chosen2 then
        logsDeeplink cfg.DEFAULT_PROJECT service
          (if draft.probable_cause ≠ "" then draft.probable_cause else "error") 60
      else chosen2
    else chosen
  else if pyRstripSlash rb = pyRstripSlash cfg.RUNBOOK_BASE then
    pickRunbookFromText cfg draft.probable_cause service qt
  else rb

/-- The synthesized fallback commands of lines 248–263. -/
def fallbackCmds (cfg : Config) (service : JVal) (probable : String) : List String :=
  let low := pyLower probable
  if ["nginx", "gateway", "upstream", "502"].any (fun k => pyInStr k low) then
    ["kubectl logs -l service=" ++ pyStr service ++ " --tail=100",
     "kubectl get services " ++ pyStr service ++ " -o yaml",
     "kubectl describe pod -l service=" ++ pyStr service,
     "curl -s -o /dev/null -w '%{http_code}\\n' https://<web-edge-service-url>"]
  else
    ["gcloud logging read 'resource.type=\"cloud_run_revision\" AND resource.labels.service_name=\""
       ++ pyStr service ++ "\" AND severity>=\"ERROR\"' --limit=50 --format=json",
     "gcloud run services describe " ++ pyStr service ++ " --region " ++ cfg.DEFAULT_REGION
       ++ " --project " ++ cfg.DEFAULT_PROJECT,
     "curl -I https://<service-url>"]

/-- The controlled-restart command of line 265. -/
def restartCmd (service : JVal) : String :=
  "kubectl rollout restart deployment/" ++ pyStr service

/-- The command list after normalization and the weak-list fallback
(lines 245–263), before the restart append. -/
def cmdsBase (cfg : Config) (service : JVal) (probable : String) (raw : JVal) : List String :=
  let cmds := normalizeCmds raw
  if cmds.length < 2 then fallbackCmds cfg service probable else cmds

/-- The full command block of `triage` (lines 244–267): note the restart
append tests `decision.priority` — still the model's draft — since the
deterministic priority is only computed afterwards (line 270). -/
def cmdsStage (cfg : Config) (service : JVal) (probable draftPriority : String)
    (raw : JVal) : List String :=
  let cmds := cmdsBase cfg service probable raw
  let cmds :=
    if pyUpper draftPriority = "P1" ∧ ¬ cmds.any (fun c => pyInStr (restartCmd service) c)
    then cmds ++ [restartCmd service] else cmds
  cmds.take 5

/-- `query_text` of lines 197–201 (the third `or`-arm is kept although
`json.dumps` of the second never yields a falsy string). -/
def queryText (log : PyDict) : JVal :=
  pyOr (pyGet log "textPayload")
    (pyOr (.str (pyDumps false (pyGetD log "jsonPayload" (.obj []))))
      (.str (pyDumps false (.obj log))))

/-- `triage`, with the two external collaborators supplied as arguments:
`cases` is what `retrieve_similar` returned and `draft` the parsed model
output.  Everything from line 210 on — the deterministic hardening block
this specification is about — is embedded faithfully, including the
`setdefault` mutation of line 203. -/
def triage (cfg : Config) (cases : List JVal) (draft : TriageDraft) (log : PyDict) :
    Except PyErr DecisionOut :=
  let qt := queryText log
  let log := pySetdefault log "_dedupe_hint" (.str (stableKey log))
  (resolveService draft log).bind fun service =>
  let dedupe :=
    if ¬ (draft.dedupe_key ≠ "" ∧ pyStrip draft.dedupe_key ≠ "") then stableKey log
    else draft.dedupe_key
  let nc := coerceList draft.notify_channels
  let notify := if nc.isEmpty then ["email:" ++ cfg.ALERT_EMAIL] else nc
  let runbook := resolveRunbookStage cfg draft cases service qt
  let cmds := cmdsStage cfg service draft.probable_cause draft.priority draft.suggest_cmds
  (deterministicPriority cfg log draft.priority draft.probable_cause service).bind fun priority =>
  .ok ⟨draft.severity, service, priority, draft.probable_cause, runbook, dedupe,
       notify, cmds, draft.recommended_actions, draft.similar_cases, draft.summary⟩

/-- A log `textPayload` value the classifier's `" ".join` tolerates:
a string, or anything falsy (replaced by `""` through `or`). -/
def strOrFalsy : JVal → Bool
  | .str _ => true
  | v => ¬ pyTruthy v

/-- A log `jsonPayload` value the hint access tolerates: a dict, or
anything falsy (replaced by `{}` through `or`). -/
def dictOrFalsy : JVal → Bool
  | .obj _ => true
  | v => ¬ pyTruthy v

/-- A log whose `labels` field (when present) is a dict, as the service
fallback `log.get("labels", {}).get("service_name")` requires. -/
def labelsOk (log : PyDict) : Bool :=
  match log.lookup "labels" with
  | none => true
  | some (.obj _) => true
  | some _ => false

/-- Lowercase hexadecimal character. -/
def isLowHexChar (c : Char) : Bool := "0123456789abcdef".data.contains c

/-- The spec's dedupe-key format: exactly 16 lowercase hex characters. -/
def isHex16 (s : String) : Bool := s.length = 16 ∧ s.data.all isLowHexChar

/-- Length of one hex-rendered word. -/
theorem word32Hex_length (w : Nat) : (word32Hex w).length = 8 := by
  simp [word32Hex]

/-- A SHA-1 hexdigest has 40 characters. -/
theorem sha1Hex_data_length (msg : List Nat) : (sha1Hex msg).data.length = 40 := by
  unfold sha1Hex
  simp [word32Hex_length]

/-- All 16 hex digits render as lowercase hex characters. -/
theorem lowHexChar_isLowHex : ∀ d < 16, isLowHexChar (lowHexChar d) = true := by decide

/-- Every character of a SHA-1 hexdigest is lowercase hex. -/
theorem sha1Hex_chars (msg : List Nat) :
    ∀ c ∈ (sha1Hex msg).data, isLowHexChar c = true := by
  unfold sha1Hex
  intro c hc
  simp only [List.flatMap, List.map_cons, List.map_nil, List.flatten, List.mem_append,
    List.mem_nil_iff, or_false, List.append_nil] at hc
  have : ∀ w, c ∈ word32Hex w → isLowHexChar c = true := by
    intro w hw
    simp only [word32Hex, List.mem_map, List.mem_range] at hw
    obtain ⟨i, _, rfl⟩ := hw
    exact lowHexChar_isLowHex _ (Nat.mod_lt _ (by norm_num))
  rcases hc with h | h | h | h | h <;> exact this _ h

/-- `_stable_key` always returns a 16-character lowercase hex string. -/
theorem stableKey_isHex16 (log : PyDict) : isHex16 (stableKey log) = true := by
  unfold isHex16 stableKey
  simp only [Bool.and_eq_true, decide_eq_true_eq]
  refine ⟨?_, ?_⟩
  · show (List.take 16 (sha1Hex _).data).length = 16
    rw [List.length_take, sha1Hex_data_length]
    rfl
  · rw [List.all_eq_true]
    intro c hc
    exact sha1Hex_chars _ c (List.mem_of_mem_take hc)

/-- C2 witness input: extra fields, a `_dedupe_hint`, different key order. -/
def c2log1 : PyDict :=
  [("textPayload", .str "boom 502"), ("other", .num 7), ("_dedupe_hint", .str "aa")]

/-- C2 witness input: agrees with `c2log1` on the four stable fields. -/
def c2log2 : PyDict := [("zzz", .bool true), ("textPayload", .str "boom 502")]

/-- C2: `_stable_key` depends only on `logName`, `resource`, `textPayload`
and `jsonPayload`: two LogEvent mappings agreeing on those four lookups
(each possibly absent) get the same 16-character digest, whatever their
other fields (including `_dedupe_hint`) and their key order. -/
theorem c2_stable_key_only_four_fields (l1 l2 : PyDict)
    (h : ∀ k ∈ ["logName", "resource", "textPayload", "jsonPayload"],
      pyGet l1 k = pyGet l2 k) :
    stableKey l1 = stableKey l2 ∧ (stableKey l1).length = 16 := by
  have e1 := h "logName" (by simp)
  have e2 := h "resource" (by simp)
  have e3 := h "textPayload" (by simp)
  have e4 := h "jsonPayload" (by simp)
  refine ⟨?_, ?_⟩
  · unfold stableKey
    rw [e1, e2, e3, e4]
  · have hx := stableKey_isHex16 l1
    unfold isHex16 at hx
    simp only [Bool.and_eq_true, decide_eq_true_eq] at hx
    exact hx.1

/-- Witness for C2 at two concrete logs differing in extra fields and
insertion order. -/
theorem c2_stable_key_only_four_fields_witness :
    (pyGet c2log1 "logName" = pyGet c2log2 "logName"
      ∧ pyGet c2log1 "resource" = pyGet c2log2 "resource"
      ∧ pyGet c2log1 "textPayload" = pyGet c2log2 "textPayload"
      ∧ pyGet c2log1 "jsonPayload" = pyGet c2log2 "jsonPayload")
    ∧ stableKey c2log1 = stableKey c2log2 := by
  refine ⟨⟨rfl, rfl, rfl, rfl⟩, ?_⟩
  refine (c2_stable_key_only_four_fields c2log1 c2log2 ?_).1
  intro k hk
  fin_cases hk <;> rfl

/-- C4 (code evaluation): a `severity:"CRITICAL"` LogEvent with an entirely
empty draft classifies P3, not P1 — `_normalize_priority` returns its
default `"P3"` for an empty draft, which is in `_ALLOWED`, so the
severity fallback of lines 189–193 is unreachable, contradicting the
inline comment "use draft if sane, else default by severity". -/
theorem c4_critical_severity_empty_draft_evaluates_p3 :
    deterministicPriority defaultConfig [("severity", .str "CRITICAL")] "" ""
      (.str "unknown-service") = .ok "P3" := by decide

/-- Every form `_normalize_priority` recognizes: valid P1–P5 plus the
mapped aliases. -/
def recognizedPriorityForms : List String :=
  ["P1", "P2", "P3", "P4", "P5", "1", "HIGH", "SEV1", "2", "SEV2", "3", "MEDIUM",
   "SEV3", "4", "LOW", "SEV4", "5", "INFO", "SEV5"]

/-- `_normalize_priority` falls back to its default on a string that is in
none of the recognition tables. -/
theorem normalizePriority_unrecognized (p : String)
    (h : pyUpper (pyStrip p) ∉ recognizedPriorityForms) :
    normalizePriority p "P3" = "P3" := by
  unfold normalizePriority
  by_cases hp : p = ""
  · simp [hp]
  · split_ifs <;> simp_all [recognizedPriorityForms, allowedPriorities]

/-- C10: a truthy hint that normalizes to none of the recognized forms
short-circuits the whole classifier to P3, whatever the haystack, the
draft priority, and the severity. -/
theorem c10_unrecognized_hint_returns_p3 (cfg : Config) (log : PyDict)
    (draft probable : String) (service : JVal) {t : String} {hv : JVal}
    (htext : hayText log probable = .ok t)
    (hhint : explicitHint log = .ok hv)
    (htru : pyTruthy hv = true)
    (hun : pyUpper (pyStrip (pyStr hv)) ∉ recognizedPriorityForms) :
    deterministicPriority cfg log draft probable service = .ok "P3" := by
  unfold deterministicPriority
  rw [htext, hhint]
  simp only [Except.bind]
  simp [htru, normalizePriority_unrecognized (pyStr hv) hun]

/-- Witness for C10: hint `"URGENT"` yields P3 although the text contains
`"outage"`. -/
theorem c10_unrecognized_hint_witness :
    deterministicPriority defaultConfig
      [("textPayload", .str "outage"), ("jsonPayload", .obj [("priority", .str "URGENT")])]
      "P4" "" (.str "x") = .ok "P3" := by
  exact c10_unrecognized_hint_returns_p3 defaultConfig
    [("textPayload", .str "outage"), ("jsonPayload", .obj [("priority", .str "URGENT")])]
    "P4" "" (.str "x") rfl rfl (by decide) (by decide)

/-- C3: with no explicit hint, `"outage"` in the haystack forces P1
whatever the draft; `"502"` with no tier-1 keyword forces P1 for a
critical service and P2 otherwise. -/
theorem c3_keyword_priority_precedence (cfg : Config) (log : PyDict)
    (draft probable : String) (service : JVal) {t : String} {hv : JVal}
    (htext : hayText log probable = .ok t)
    (hhint : explicitHint log = .ok hv)
    (hfal : pyTruthy hv = false) :
    (pyInStr "outage" t = true →
      deterministicPriority cfg log draft probable service = .ok "P1")
    ∧ (pyInStr "502" t = true → (∀ k ∈ p1Keys, pyInStr k t = false) →
      deterministicPriority cfg log draft probable service =
        .ok (if svcInSet service cfg.CRITICAL_SERVICES then "P1" else "P2")) := by
  constructor
  · intro hout
    unfold deterministicPriority
    rw [htext, hhint]
    simp only [Except.bind]
    have hp1 : p1Keys.any (fun k => pyInStr k t) = true :=
      List.any_eq_true.mpr ⟨"outage", by decide, hout⟩
    simp [hfal, hp1]
  · intro h502 hnop1
    unfold deterministicPriority
    rw [htext, hhint]
    simp only [Except.bind]
    have hp1 : p1Keys.any (fun k => pyInStr k t) = false := by
      rw [List.any_eq_false]
      intro k hk
      simp [hnop1 k hk]
    have hp2 : p2Keys.any (fun k => pyInStr k t) = true :=
      List.any_eq_true.mpr ⟨"502", by decide, h502⟩
    simp [hfal, hp1, hp2]

/-- The default configuration with `CRITICAL_SERVICES=payments`. -/
def critConfig : Config :=
  ⟨"https://srujanpulathota.github.io/runbooks", "my-gcp-project", "us-central1",
   "you@gmail.com", "P2", ["payments"]⟩

/-- Witness for C3: an `"outage"` log beats a P4 draft; a `"502"` log is P1
for the configured critical service and P2 for another. -/
theorem c3_keyword_priority_precedence_witness :
    deterministicPriority critConfig [("textPayload", .str "big outage")] "P4" ""
        (.str "web") = .ok "P1"
    ∧ deterministicPriority critConfig [("textPayload", .str "error 502 seen")] "P4" ""
        (.str "payments") = .ok "P1"
    ∧ deterministicPriority critConfig [("textPayload", .str "error 502 seen")] "P4" ""
        (.str "web-edge") = .ok "P2" := by
  refine ⟨?_, ?_, ?_⟩
  · exact (c3_keyword_priority_precedence critConfig [("textPayload", .str "big outage")]
      "P4" "" (.str "web") rfl rfl (by decide)).1 (by decide)
  · have h := (c3_keyword_priority_precedence critConfig
      [("textPayload", .str "error 502 seen")] "P4" "" (.str "payments")
      rfl rfl (by decide)).2 (by decide) (by decide)
    simpa using h
  · have h := (c3_keyword_priority_precedence critConfig
      [("textPayload", .str "error 502 seen")] "P4" "" (.str "web-edge")
      rfl rfl (by decide)).2 (by decide) (by decide)
    simpa using h

/-- Appending one binding with a fresh key does not change other lookups. -/
theorem lookup_append_single (l : PyDict) (k k' : String) (v : JVal) (h : k' ≠ k) :
    (l ++ [(k, v)]).lookup k' = l.lookup k' := by
  induction l with
  | nil =>
    simp only [List.nil_append, List.lookup]
    rw [beq_false_of_ne h]
  | cons kv rest ih =>
    rcases kv with ⟨k1, v1⟩
    simp only [List.cons_append, List.lookup]
    cases hbeq : k' == k1
    · simpa using ih
    · rfl

/-- Lookup is unchanged by `setdefault` of a different key. -/
theorem lookup_pySetdefault_ne (log : PyDict) (k k' : String) (v : JVal) (h : k' ≠ k) :
    (pySetdefault log k v).lookup k' = log.lookup k' := by
  unfold pySetdefault
  split
  · rfl
  · exact lookup_append_single log k k' v h

/-- `_stable_key` is unchanged by the `_dedupe_hint` mutation of line 203. -/
theorem stableKey_pySetdefault (log : PyDict) (v : JVal) :
    stableKey (pySetdefault log "_dedupe_hint" v) = stableKey log := by
  unfold stableKey
  unfold pyGet
  rw [lookup_pySetdefault_ne log _ "logName" v (by decide),
      lookup_pySetdefault_ne log _ "resource" v (by decide),
      lookup_pySetdefault_ne log _ "textPayload" v (by decide),
      lookup_pySetdefault_ne log _ "jsonPayload" v (by decide)]

/-- Inversion of a successful `triage` run: the returned decision is the
record built from the stage functions, with the resolved service and the
deterministic priority coming from their (successful) `Except` stages. -/
theorem triage_ok_inversion (cfg : Config) (cases : List JVal) (draft : TriageDraft)
    (log : PyDict) (d : DecisionOut) (hok : triage cfg cases draft log = .ok d) :
    ∃ service priority,
      resolveService draft (pySetdefault log "_dedupe_hint" (.str (stableKey log))) = .ok service
      ∧ deterministicPriority cfg (pySetdefault log "_dedupe_hint" (.str (stableKey log)))
          draft.priority draft.probable_cause service = .ok priority
      ∧ d = ⟨draft.severity, service, priority, draft.probable_cause,
             resolveRunbookStage cfg draft cases service (queryText log),
             (if ¬ (draft.dedupe_key ≠ "" ∧ pyStrip draft.dedupe_key ≠ "")
              then stableKey log else draft.dedupe_key),
             (let nc := coerceList draft.notify_channels
              if nc.isEmpty then ["email:" ++ cfg.ALERT_EMAIL] else nc),
             cmdsStage cfg service draft.probable_cause draft.priority draft.suggest_cmds,
             draft.recommended_actions, draft.similar_cases, draft.summary⟩ := by
  unfold triage at hok
  simp only [] at hok
  rcases hsv : resolveService draft (pySetdefault log "_dedupe_hint" (.str (stableKey log)))
    with e | sv
  · rw [hsv] at hok
    simp [Except.bind] at hok
  · rw [hsv] at hok
    simp only [Except.bind] at hok
    rcases hp : deterministicPriority cfg (pySetdefault log "_dedupe_hint" (.str (stableKey log)))
        draft.priority draft.probable_cause sv with e | p
    · rw [hp] at hok
      simp [Except.bind] at hok
    · rw [hp] at hok
      simp only [Except.bind, Except.ok.injEq] at hok
      refine ⟨sv, p, rfl, hp, ?_⟩
      rw [← hok]
      rw [stableKey_pySetdefault]

/-- C9 counterexample draft: supplies `dedupe_key="zz"`. -/
def c9draft : TriageDraft := ⟨"", "", "", "", "", "zz", .arr [], .arr [], .null, [], none⟩

/-- C9 is false as stated: a draft-supplied non-empty dedupe key passes
through verbatim, and `"zz"` is not a 16-character lowercase hex string. -/
theorem c9_counterexample :
    (triage defaultConfig [] c9draft []).map (fun d => d.dedupe_key) = .ok "zz"
    ∧ isHex16 "zz" = false := by
  exact ⟨rfl, by decide⟩

/-- C9 (amended): the dedupe key of the returned Decision is the draft's
own key whenever that strips non-empty; only otherwise is it the derived
`_stable_key`, which is a 16-character lowercase hex string. -/
theorem c9_dedupe_key_amended (cfg : Config) (cases : List JVal) (draft : TriageDraft)
    (log : PyDict) (d : DecisionOut) (hok : triage cfg cases draft log = .ok d) :
    (¬ (draft.dedupe_key ≠ "" ∧ pyStrip draft.dedupe_key ≠ "") →
      d.dedupe_key = stableKey log ∧ isHex16 d.dedupe_key = true)
    ∧ ((draft.dedupe_key ≠ "" ∧ pyStrip draft.dedupe_key ≠ "") →
      d.dedupe_key = draft.dedupe_key) := by
  obtain ⟨sv, p, hsv, hp, rfl⟩ := triage_ok_inversion cfg cases draft log d hok
  refine ⟨fun h => ?_, fun h => ?_⟩
  · refine ⟨by simp [h], ?_⟩
    show isHex16 (if _ then _ else _) = true
    rw [if_pos h]
    exact stableKey_isHex16 log
  · simp [h]

/-- C9 witness draft: empty dedupe key. -/
def w9draft : TriageDraft := ⟨"", "", "", "", "", "", .arr [], .arr [], .null, [], none⟩

/-- Witness for the amended C9: an empty draft key yields a 16-hex key. -/
theorem c9_dedupe_key_amended_witness :
    ¬ (w9draft.dedupe_key ≠ "" ∧ pyStrip w9draft.dedupe_key ≠ "")
    ∧ (triage defaultConfig [] w9draft []).map (fun d => isHex16 d.dedupe_key) = .ok true := by
  refine ⟨by decide, ?_⟩
  rcases hok : triage defaultConfig [] w9draft [] with e | d
  · have hIsOk : (triage defaultConfig [] w9draft []).isOk = true := by decide
    rw [hok] at hIsOk
    simp [Except.isOk, Except.toBool] at hIsOk
  · simp only [Except.map]
    rw [((c9_dedupe_key_amended defaultConfig [] w9draft [] d hok).1 (by decide)).2]

/-- C5 counterexample log/draft: the log says "outage" (final priority P1)
while the model drafted P4 and two valid commands. -/
def c5log : PyDict := [("textPayload", .str "total outage now")]

/-- See `c5log`. -/
def c5draft : TriageDraft :=
  ⟨"", "web", "P4", "", "", "k", .arr [],
   .arr [.str "kubectl get pods -A", .str "kubectl get events -A"], .null, [], none⟩

/-- C5 is false as stated: the final resolved priority is P1 (the log says
"outage"), yet no controlled-restart command was appended — the append at
line 264 tested the model's draft priority "P4", not the final one. -/
theorem c5_counterexample :
    (triage defaultConfig [] c5draft c5log).map (fun d => (d.priority, d.suggest_cmds)) =
      .ok ("P1", ["kubectl get pods -A", "kubectl get events -A"])
    ∧ ["kubectl get pods -A", "kubectl get events -A"].any
        (fun c => pyInStr (restartCmd (.str "web")) c) = false := by
  exact ⟨rfl, by decide⟩

/-- C5 (amended): the controlled-restart append is keyed on the upper-cased
draft priority (the model's), evaluated before deterministic resolution:
for a non-"P1" draft nothing is appended, and for a "P1" draft with no
command containing the restart string exactly one restart command is
appended as the last element before the final truncation to five. -/
theorem c5_restart_append_follows_draft_priority (cfg : Config) (cases : List JVal)
    (draft : TriageDraft) (log : PyDict) (d : DecisionOut)
    (hok : triage cfg cases draft log = .ok d) :
    (pyUpper draft.priority ≠ "P1" →
      d.suggest_cmds = (cmdsBase cfg d.service draft.probable_cause draft.suggest_cmds).take 5)
    ∧ (pyUpper draft.priority = "P1" ∧
        (cmdsBase cfg d.service draft.probable_cause draft.suggest_cmds).any
          (fun c => pyInStr (restartCmd d.service) c) = false →
      d.suggest_cmds = ((cmdsBase cfg d.service draft.probable_cause draft.suggest_cmds)
          ++ [restartCmd d.service]).take 5
      ∧ ((cmdsBase cfg d.service draft.probable_cause draft.suggest_cmds).length ≤ 4 →
          d.suggest_cmds.getLast? = some (restartCmd d.service))) := by
  obtain ⟨sv, p, hsv, hp, rfl⟩ := triage_ok_inversion cfg cases draft log d hok
  refine ⟨fun h => ?_, fun h => ?_⟩
  · show cmdsStage _ _ _ _ _ = _
    unfold cmdsStage
    simp only []
    rw [if_neg (fun hc => h hc.1)]
  · obtain ⟨h1, h2⟩ := h
    have hcond : pyUpper draft.priority = "P1" ∧
        ¬ (cmdsBase cfg sv draft.probable_cause draft.suggest_cmds).any
          (fun c => pyInStr (restartCmd sv) c) = true := ⟨h1, by simp [h2]⟩
    constructor
    · show cmdsStage _ _ _ _ _ = _
      unfold cmdsStage
      simp only []
      rw [if_pos hcond]
    · intro hlen
      dsimp only [] at hlen
      show (cmdsStage _ _ _ _ _).getLast? = _
      unfold cmdsStage
      simp only []
      rw [if_pos hcond]
      rw [List.take_of_length_le (by simp; omega)]
      exact List.getLast?_concat _

/-- C5 witness draft: P4 draft priority, two valid commands. -/
def w5draft : TriageDraft :=
  ⟨"", "web", "P4", "", "", "k", .arr [],
   .arr [.str "kubectl get pods -A", .str "kubectl get events -A"], .null, [], none⟩

/-- Witness for the amended C5: with a non-P1 draft the returned command
list is exactly the truncated base list. -/
theorem c5_restart_append_follows_draft_priority_witness :
    pyUpper w5draft.priority ≠ "P1"
    ∧ (triage defaultConfig [] w5draft []).map (fun d => d.suggest_cmds) =
        .ok ((cmdsBase defaultConfig (.str "web") w5draft.probable_cause
              w5draft.suggest_cmds).take 5) := by
  refine ⟨by decide, ?_⟩
  rcases hok : triage defaultConfig [] w5draft [] with e | d
  · have hIsOk : (triage defaultConfig [] w5draft []).isOk = true := by decide
    rw [hok] at hIsOk
    simp [Except.isOk, Except.toBool] at hIsOk
  · simp only [Except.map]
    obtain ⟨sv, p, hsv, hp, hd⟩ := triage_ok_inversion _ _ _ _ _ hok
    have hsv2 : resolveService w5draft (pySetdefault [] "_dedupe_hint" (.str (stableKey []))) =
        .ok (.str "web") := rfl
    rw [hsv2] at hsv
    have hsveq : JVal.str "web" = sv := Except.ok.inj hsv
    have h := (c5_restart_append_follows_draft_priority defaultConfig [] w5draft [] d hok).1
      (by decide)
    rw [h]
    subst hd
    dsimp only []
    rw [hsveq]

/-- Every URL the similar-case scan collects passed `_looks_like_url`. -/
theorem simCaseUrl_valid (c : JVal) (u : String) (h : simCaseUrl c = some u) :
    looksLikeUrl u = true := by
  unfold simCaseUrl at h
  rcases c with _ | _ | _ | _ | _ | kvs <;> simp at h
  rcases hm : pyGet kvs "meta" with _ | _ | _ | _ | _ | m <;> rw [hm] at h <;> simp at h
  split at h
  · rcases hv : (m.lookup "url").getD JVal.null with _ | _ | _ | s | _ | _ <;>
      rw [hv] at h <;> simp_all [looksLikeUrlJ, looksLikeUrl]
    obtain ⟨⟨-, h2⟩, rfl⟩ := h
    exact h2
  · simp at h

/-- See `simCaseUrl_valid`. -/
theorem collectSimUrls_valid (cases : List JVal) :
    ∀ u ∈ collectSimUrls cases, looksLikeUrl u = true := by
  intro u hu
  unfold collectSimUrls at hu
  rw [List.mem_filterMap] at hu
  obtain ⟨c, _, hc⟩ := hu
  exact simCaseUrl_valid c u hc

/-- The six runbook URLs reachable under the default base. -/
def runbookUrlsDefault : List String :=
  ["https://srujanpulathota.github.io/runbooks/502s",
   "https://srujanpulathota.github.io/runbooks/upstream-failure",
   "https://srujanpulathota.github.io/runbooks/timeouts",
   "https://srujanpulathota.github.io/runbooks/db-connection",
   "https://srujanpulathota.github.io/runbooks/oom",
   "https://srujanpulathota.github.io/runbooks/triage-general"]

/-- Under the default configuration, `_pick_runbook_from_text` returns one
of six fixed URLs, for every haystack. -/
theorem pickRunbook_mem_default (probable : String) (service fullText : JVal) :
    pickRunbookFromText defaultConfig probable service fullText ∈ runbookUrlsDefault := by
  unfold pickRunbookFromText
  simp only []
  rcases hf : runbookMap.find? (fun ks =>
      pyInStr ks.1 (pyLower (probable ++ " " ++ pyStr service ++ " " ++ pyStr fullText)))
    with _ | ks
  · rw [hf]
    decide
  · rw [hf]
    have hmem : ks ∈ runbookMap := List.mem_of_find?_eq_some hf
    have hall : ∀ x ∈ runbookMap,
        urljoinSlug (defaultConfig.RUNBOOK_BASE ++ "/") x.2 ∈ runbookUrlsDefault := by decide
    exact hall ks hmem

/-- The log-search deep link always passes `_looks_like_url`: its scheme
and host are fixed, and everything supplied by callers lands after the
first path slash. -/
theorem logsDeeplink_valid (proj : String) (service : JVal) (needle : String) (m : Nat) :
    looksLikeUrl (logsDeeplink proj service needle m) = true := rfl

/-- Under the default configuration every runbook the resolution block can
return passes `_looks_like_url`: a kept draft URL and a similar-case URL
were checked, the slug composition is one of six valid URLs, and the
deep link is valid by construction. -/
theorem resolveRunbookStage_valid_default (draft : TriageDraft) (cases : List JVal)
    (service qt : JVal) :
    looksLikeUrl (resolveRunbookStage defaultConfig draft cases service qt) = true := by
  have hpick : ∀ p : String, ∀ s f : JVal,
      looksLikeUrl (pickRunbookFromText defaultConfig p s f) = true := by
    intro p s f
    have hmem := pickRunbook_mem_default p s f
    have : ∀ x ∈ runbookUrlsDefault, looksLikeUrl x = true := by decide
    exact this _ hmem
  unfold resolveRunbookStage
  by_cases h1 : looksLikeUrl draft.runbook = true
  · rw [if_neg (by simp [h1])]
    by_cases h2 : pyRstripSlash draft.runbook = pyRstripSlash defaultConfig.RUNBOOK_BASE
    · rw [if_pos h2]
      exact hpick _ _ _
    · rw [if_neg h2]
      exact h1
  · rw [if_pos (by simpa using h1)]
    cases hcs : collectSimUrls cases with
    | nil =>
      simp only [List.head?, Option.getD, if_pos]
      by_cases h4 : looksLikeUrl (pickRunbookFromText defaultConfig draft.probable_cause service qt) = true
      · rw [if_neg (by simp [h4])]
        exact h4
      · rw [if_pos (by simpa using h4)]
        exact logsDeeplink_valid _ _ _ _
    | cons u us =>
      have hu : looksLikeUrl u = true :=
        collectSimUrls_valid cases u (by rw [hcs]; exact List.mem_cons_self u us)
      have hune : u ≠ "" := by
        intro he
        rw [he] at hu
        exact absurd hu (by decide)
      simp only [List.head?, Option.getD]
      rw [if_neg hune]
      exact hu

/-- C7: under the default configuration, the runbook of every Decision
`triage` returns satisfies the http(s)+non-empty-host check, whatever the
draft runbook, similar cases, probable cause and service. -/
theorem c7_runbook_always_valid (cases : List JVal) (draft : TriageDraft) (log : PyDict)
    (d : DecisionOut) (hok : triage defaultConfig cases draft log = .ok d) :
    looksLikeUrl d.runbook = true := by
  obtain ⟨sv, p, hsv, hp, rfl⟩ := triage_ok_inversion _ _ _ _ _ hok
  exact resolveRunbookStage_valid_default draft cases sv (queryText log)

/-- C7 witness draft: a garbage draft runbook. -/
def w7draft : TriageDraft :=
  ⟨"", "", "", "", "not a url", "k", .arr [], .arr [], .null, [], none⟩

/-- Witness for C7 at a concrete garbage-runbook draft. -/
theorem c7_runbook_always_valid_witness :
    (triage defaultConfig [] w7draft []).map (fun d => looksLikeUrl d.runbook) = .ok true := by
  rcases hok : triage defaultConfig [] w7draft [] with e | d
  · have hIsOk : (triage defaultConfig [] w7draft []).isOk = true := by decide
    rw [hok] at hIsOk
    simp [Except.isOk, Except.toBool] at hIsOk
  · simp only [Except.map]
    rw [c7_runbook_always_valid [] w7draft [] d hok]

/-- A string passing `_looks_like_url` is non-empty. -/
theorem looksLikeUrl_ne_empty (s : String) (h : looksLikeUrl s = true) : s ≠ "" := by
  intro he
  rw [he] at h
  exact absurd h (by decide)

/-- `rstrip("/")` is the identity on a string not ending in `/`. -/
theorem pyRstripSlash_eq_self (s : String) (h : s.data.getLastD '/' ≠ '/') :
    pyRstripSlash s = s := by
  unfold pyRstripSlash
  cases hs : s.data.reverse with
  | nil =>
    rw [List.reverse_eq_nil_iff] at hs
    rw [hs] at h
    simp at h
  | cons c cs =>
    have hlast : s.data.getLastD '/' = c := by
      rw [List.getLastD_eq_getLast?, ← List.head?_reverse, hs]
      rfl
    have hc : ¬ (c = '/') := fun he => h (by rw [hlast, he])
    rw [List.dropWhile_cons]
    rw [if_neg (by simpa using hc)]
    rw [← hs, List.reverse_reverse]

/-- `getLastD` looks only at a non-empty right part of an append. -/
theorem getLastD_append_right (a b : List Char) (d : Char) (hb : b ≠ []) :
    (a ++ b).getLastD d = b.getLastD d := by
  simp [List.getLastD_eq_getLast?, List.getLast?_append_of_ne_nil _ hb]

/-- The character-level decomposition of `_logs_deeplink`. -/
theorem logsDeeplink_data (proj : String) (service : JVal) (needle : String) (m : Nat) :
    (logsDeeplink proj service needle m).data =
      "https://console.cloud.google.com/logs/query;query=".data
        ++ (pyQuote ("resource.type=\"cloud_run_revision\"\n" ++
              "resource.labels.service_name=\"" ++ pyStr service ++ "\"\n" ++
              "textPayload:\"" ++ (⟨needle.data.take 80⟩ : String) ++ "\"")).data
        ++ ";timeRange=PT".data ++ (toString m).data ++ "M;project=".data ++ proj.data := by
  simp [logsDeeplink, String.intercalate, String.intercalate.go, String.data_append]

/-- With the default project id, the deep link ends in a non-slash. -/
theorem logsDeeplink_default_last (service : JVal) (needle : String) :
    (logsDeeplink defaultConfig.DEFAULT_PROJECT service needle 60).data.getLastD '/' = 't' := by
  rw [logsDeeplink_data]
  rw [getLastD_append_right _ _ _ (by decide)]
  decide

/-- With the default project id, the deep link differs from the bare
runbook base (they differ at character 8: `c` against `s`). -/
theorem logsDeeplink_default_ne_base (service : JVal) (needle : String) :
    logsDeeplink defaultConfig.DEFAULT_PROJECT service needle 60 ≠
      defaultConfig.RUNBOOK_BASE := by
  intro he
  have h8 : (logsDeeplink defaultConfig.DEFAULT_PROJECT service needle 60).data[8]? =
      some 'c' := by
    rw [logsDeeplink_data]
    simp only [List.append_assoc]
    rw [List.getElem?_append]
    simp
  have h8' : defaultConfig.RUNBOOK_BASE.data[8]? = some 's' := by decide
  rw [he, h8'] at h8
  exact absurd h8 (by decide)

/-- Under the default configuration, when no collected similar-case URL
matches the bare base the resolved runbook is non-empty and is never the
bare runbook base (up to trailing slashes). -/
theorem resolveRunbookStage_ne_base_default (draft : TriageDraft) (cases : List JVal)
    (service qt : JVal)
    (hsim : ∀ u ∈ collectSimUrls cases,
      pyRstripSlash u ≠ pyRstripSlash defaultConfig.RUNBOOK_BASE) :
    resolveRunbookStage defaultConfig draft cases service qt ≠ ""
    ∧ pyRstripSlash (resolveRunbookStage defaultConfig draft cases service qt) ≠
        pyRstripSlash defaultConfig.RUNBOOK_BASE := by
  have hpickf : ∀ x ∈ runbookUrlsDefault,
      x ≠ "" ∧ pyRstripSlash x ≠ pyRstripSlash defaultConfig.RUNBOOK_BASE := by decide
  have hdlast := logsDeeplink_default_last service
  unfold resolveRunbookStage
  by_cases h1 : looksLikeUrl draft.runbook = true
  · rw [if_neg (by simp [h1])]
    by_cases h2 : pyRstripSlash draft.runbook = pyRstripSlash defaultConfig.RUNBOOK_BASE
    · rw [if_pos h2]
      exact hpickf _ (pickRunbook_mem_default _ _ _)
    · rw [if_neg h2]
      exact ⟨looksLikeUrl_ne_empty _ h1, h2⟩
  · rw [if_pos (by simpa using h1)]
    cases hcs : collectSimUrls cases with
    | nil =>
      simp only [List.head?, Option.getD, if_pos]
      by_cases h4 : looksLikeUrl (pickRunbookFromText defaultConfig draft.probable_cause
          service qt) = true
      · rw [if_neg (by simp [h4])]
        exact hpickf _ (pickRunbook_mem_default _ _ _)
      · rw [if_pos (by simpa using h4)]
        refine ⟨?_, ?_⟩
        · exact looksLikeUrl_ne_empty _ (logsDeeplink_valid _ _ _ _)
        · rw [pyRstripSlash_eq_self _ (by rw [hdlast _]; decide)]
          rw [show pyRstripSlash defaultConfig.RUNBOOK_BASE = defaultConfig.RUNBOOK_BASE
            from by decide]
          exact logsDeeplink_default_ne_base _ _
    | cons u us =>
      have hmem : u ∈ collectSimUrls cases := by
        rw [hcs]
        exact List.mem_cons_self u us
      have hu : looksLikeUrl u = true := collectSimUrls_valid cases u hmem
      have hune : u ≠ "" := looksLikeUrl_ne_empty _ hu
      simp only [List.head?, Option.getD]
      rw [if_neg hune]
      exact ⟨hune, hsim u hmem⟩

/-- C8 counterexample input: a similar case whose `meta.url` is exactly
the bare runbook base. -/
def c8cases : List JVal :=
  [.obj [("meta", .obj [("url", .str "https://srujanpulathota.github.io/runbooks")])]]

/-- See `c8cases`. -/
def c8draft : TriageDraft := ⟨"", "", "", "", "", "k", .arr [], .arr [], .null, [], none⟩

/-- C8 is false as stated: the similar-case tier uses `meta.url` as-is,
so the returned runbook can be exactly the bare runbook-base URL. -/
theorem c8_counterexample :
    (triage defaultConfig c8cases c8draft []).map (fun d => d.runbook) =
      .ok "https://srujanpulathota.github.io/runbooks"
    ∧ defaultConfig.RUNBOOK_BASE = "https://srujanpulathota.github.io/runbooks" :=
  ⟨rfl, rfl⟩

/-- C8 (amended): under the default configuration the runbook is never
empty, and as long as no collected similar-case URL equals the bare base
(up to trailing slashes) it is never the bare runbook-base URL; a
similar case's URL, however, is used as-is even when it is the bare base. -/
theorem c8_runbook_never_bare_base_amended (cases : List JVal) (draft : TriageDraft)
    (log : PyDict) (d : DecisionOut)
    (hok : triage defaultConfig cases draft log = .ok d)
    (hsim : ∀ u ∈ collectSimUrls cases,
      pyRstripSlash u ≠ pyRstripSlash defaultConfig.RUNBOOK_BASE) :
    d.runbook ≠ "" ∧ pyRstripSlash d.runbook ≠ pyRstripSlash defaultConfig.RUNBOOK_BASE := by
  obtain ⟨sv, p, hsv, hp, rfl⟩ := triage_ok_inversion _ _ _ _ _ hok
  exact resolveRunbookStage_ne_base_default draft cases sv (queryText log) hsim

/-- C8 witness draft: a draft runbook equal to the bare base (with a
trailing slash), no similar cases. -/
def w8draft : TriageDraft :=
  ⟨"", "", "", "", "https://srujanpulathota.github.io/runbooks/", "k", .arr [], .arr [],
   .null, [], none⟩

/-- Witness for the amended C8: with no similar cases and a bare-base
draft runbook, the resolved runbook is non-empty and not the bare base. -/
theorem c8_runbook_never_bare_base_amended_witness :
    (triage defaultConfig [] w8draft []).map
        (fun d => decide (d.runbook ≠ "") &&
          decide (pyRstripSlash d.runbook ≠ pyRstripSlash defaultConfig.RUNBOOK_BASE)) =
      .ok true := by
  rcases hok : triage defaultConfig [] w8draft [] with e | d
  · have hIsOk : (triage defaultConfig [] w8draft []).isOk = true := by decide
    rw [hok] at hIsOk
    simp [Except.isOk, Except.toBool] at hIsOk
  · simp only [Except.map]
    have h := c8_runbook_never_bare_base_amended [] w8draft [] d hok
      (by intro u hu; simp [collectSimUrls] at hu)
    simp [h.1, h.2]

/-- `labelsOk` is preserved by the `_dedupe_hint` mutation. -/
theorem labelsOk_pySetdefault (log : PyDict) (v : JVal) :
    labelsOk (pySetdefault log "_dedupe_hint" v) = labelsOk log := by
  unfold labelsOk
  rw [lookup_pySetdefault_ne log _ "labels" v (by decide)]

/-- The service fallback cannot raise when `labels` is absent or a dict. -/
theorem resolveService_ok (draft : TriageDraft) (log : PyDict) (h : labelsOk log = true) :
    ∃ sv, resolveService draft log = .ok sv := by
  unfold resolveService
  split
  · exact ⟨_, rfl⟩
  · unfold labelsOk at h
    unfold pyGetD
    rcases hlk : log.lookup "labels" with _ | v
    · exact ⟨_, rfl⟩
    · rcases v with _ | _ | _ | _ | _ | m <;> simp_all [pyDictGet]
      exact ⟨_, rfl⟩

/-- A string-or-falsy value survives the `or ""` coercion as a string. -/
theorem pyAsStr_pyOr_empty (v : JVal) (h : strOrFalsy v = true) :
    ∃ s, pyAsStr (pyOr v (.str "")) = .ok s := by
  unfold pyOr
  by_cases ht : pyTruthy v = true
  · rw [if_pos ht]
    rcases v with _ | b | n | s | xs | kvs <;> simp_all [strOrFalsy, pyAsStr]
  · rw [if_neg ht]
    exact ⟨"", rfl⟩

/-- The haystack join cannot raise when `textPayload` is a string or falsy. -/
theorem hayText_ok (log : PyDict) (probable : String)
    (h : strOrFalsy (pyGet log "textPayload") = true) :
    ∃ t, hayText log probable = .ok t := by
  unfold hayText
  obtain ⟨s, hs⟩ := pyAsStr_pyOr_empty _ h
  rw [hs]
  exact ⟨_, rfl⟩

/-- The hint access cannot raise when `jsonPayload` is a dict or falsy. -/
theorem explicitHint_ok (log : PyDict) (h : dictOrFalsy (pyGet log "jsonPayload") = true) :
    ∃ hv, explicitHint log = .ok hv := by
  unfold explicitHint pyOr
  by_cases ht : pyTruthy (pyGet log "jsonPayload") = true
  · rw [if_pos ht]
    rcases hv : pyGet log "jsonPayload" with _ | b | n | s | xs | kvs <;>
      simp_all [dictOrFalsy, pyDictGet]
    exact ⟨_, rfl⟩
  · rw [if_neg ht]
    exact ⟨_, rfl⟩

/-- `_normalize_priority` always lands in `_ALLOWED` when its default is
in `_ALLOWED` — which is what makes the severity fallback dead code. -/
theorem normalizePriority_contains (p d : String)
    (hd : allowedPriorities.contains d = true) :
    allowedPriorities.contains (normalizePriority p d) = true := by
  unfold normalizePriority
  simp only []
  split_ifs <;> first | exact hd | decide | assumption

/-- The priority classifier cannot raise on a well-typed log: every path
returns before the severity access, because the draft normalization is
always in `_ALLOWED`. -/
theorem deterministicPriority_ok (cfg : Config) (log : PyDict) (draft probable : String)
    (service : JVal) (h1 : strOrFalsy (pyGet log "textPayload") = true)
    (h2 : dictOrFalsy (pyGet log "jsonPayload") = true) :
    ∃ p, deterministicPriority cfg log draft probable service = .ok p := by
  obtain ⟨t, ht⟩ := hayText_ok log probable h1
  obtain ⟨hv, hh⟩ := explicitHint_ok log h2
  unfold deterministicPriority
  rw [ht, hh]
  simp only [Except.bind]
  split_ifs <;> try exact ⟨_, rfl⟩
  all_goals
    rename_i hno
    exact absurd (by simpa using normalizePriority_contains draft "P3" (by decide)) hno

/-- C1 counterexample log: a mapping whose `jsonPayload` is a truthy
non-dict. -/
def c1log : PyDict := [("jsonPayload", .str "boom")]

/-- See `c1log`. -/
def c1draft : TriageDraft := ⟨"", "", "", "", "", "k", .arr [], .arr [], .null, [], none⟩

/-- C1 is false as stated: on a LogEvent that is a mapping but carries a
truthy non-dict `jsonPayload`, the classifier's hint access
`(log.get("jsonPayload") or {}).get("priority")` raises AttributeError,
so `triage` does not return a Decision. -/
theorem c1_counterexample :
    triage defaultConfig [] c1draft c1log = .error .attributeError := by rfl

/-- C1 (amended): for every LogEvent mapping whose `textPayload` is a
string or falsy, whose `jsonPayload` is a dict or falsy, and whose
`labels` (when present) is a dict, the whole hardening block completes
without raising — for every draft whatsoever, every irregular draft field
being corrected by its deterministic fallback. -/
theorem c1_normalization_total (cfg : Config) (cases : List JVal) (draft : TriageDraft)
    (log : PyDict)
    (h1 : strOrFalsy (pyGet log "textPayload") = true)
    (h2 : dictOrFalsy (pyGet log "jsonPayload") = true)
    (h3 : labelsOk log = true) :
    (triage cfg cases draft log).isOk = true := by
  have h1' : strOrFalsy (pyGet (pySetdefault log "_dedupe_hint" (.str (stableKey log)))
      "textPayload") = true := by
    unfold pyGet
    rw [lookup_pySetdefault_ne log _ "textPayload" _ (by decide)]
    exact h1
  have h2' : dictOrFalsy (pyGet (pySetdefault log "_dedupe_hint" (.str (stableKey log)))
      "jsonPayload") = true := by
    unfold pyGet
    rw [lookup_pySetdefault_ne log _ "jsonPayload" _ (by decide)]
    exact h2
  have h3' : labelsOk (pySetdefault log "_dedupe_hint" (.str (stableKey log))) = true := by
    rw [labelsOk_pySetdefault]
    exact h3
  unfold triage
  simp only []
  obtain ⟨sv, hsv⟩ := resolveService_ok draft _ h3'
  rw [hsv]
  simp only [Except.bind]
  obtain ⟨p, hp⟩ := deterministicPriority_ok cfg _ draft.priority draft.probable_cause sv h1' h2'
  rw [hp]
  simp only [Except.bind]
  rfl

/-- C1 witness log: every relevant field irregular but tolerated
(`textPayload` a falsy number, `jsonPayload` null, empty `labels` dict). -/
def w1log : PyDict := [("textPayload", .num 0), ("jsonPayload", .null), ("labels", .obj [])]

/-- C1 witness draft: wrongly-typed list fields and malformed strings. -/
def w1draft : TriageDraft :=
  ⟨"", "", "urgent!!", "??", "nope", " ", .num 5, .str "not json [", .null, [], none⟩

/-- Witness for the amended C1 at a concrete degenerate log and draft. -/
theorem c1_normalization_total_witness :
    (strOrFalsy (pyGet w1log "textPayload") = true
      ∧ dictOrFalsy (pyGet w1log "jsonPayload") = true
      ∧ labelsOk w1log = true)
    ∧ (triage defaultConfig [] w1draft w1log).isOk = true := by
  exact ⟨⟨by decide, by decide, by decide⟩,
    c1_normalization_total defaultConfig [] w1draft w1log (by decide) (by decide) (by decide)⟩

/-- A list element named by `getElem?` is a member. -/
theorem mem_of_getElemQ {l : List Char} {a : Char} {n : Nat} (h : l[n]? = some a) : a ∈ l := by
  obtain ⟨hn, rfl⟩ := List.getElem?_eq_some.mp h
  exact List.getElem_mem hn

/-- `dropWhile` is the identity on a list whose head fails the predicate. -/
theorem dropWhile_eq_self_head (p : Char → Bool) (l : List Char) (hne : l ≠ [])
    (h : p (l.headD 'x') = false) : l.dropWhile p = l := by
  cases l with
  | nil => exact absurd rfl hne
  | cons c cs =>
    rw [List.dropWhile_cons, if_neg (by simp_all)]

/-- `splitWsGo` on an all-whitespace input just flushes the current token. -/
theorem splitWsGo_all_ws (w : List Char) (hw : ∀ c ∈ w, isPyWs c = true) :
    ∀ cur, splitWsGo w cur = if cur.isEmpty then [] else [⟨cur.reverse⟩] := by
  induction w with
  | nil => intro cur; rfl
  | cons c ws ih =>
    intro cur
    have hc : isPyWs c = true := hw c (List.mem_cons_self c ws)
    have ihw : ∀ x ∈ ws, isPyWs x = true := fun x hx => hw x (List.mem_cons_of_mem _ hx)
    show splitWsGo (c :: ws) cur = _
    rw [splitWsGo]
    rw [if_pos hc]
    by_cases hcur : cur.isEmpty
    · rw [if_pos hcur, if_pos hcur]
      simpa using ih ihw []
    · rw [if_neg hcur, if_neg hcur]
      have := ih ihw []
      simp only [List.isEmpty_nil, if_pos] at this
      rw [this]

/-- Trailing whitespace does not change whitespace tokenization. -/
theorem splitWsGo_ws_suffix (w : List Char) (hw : ∀ c ∈ w, isPyWs c = true) :
    ∀ (l cur : List Char), splitWsGo (l ++ w) cur = splitWsGo l cur := by
  intro l
  induction l with
  | nil =>
    intro cur
    rw [List.nil_append, splitWsGo_all_ws w hw cur]
    rfl
  | cons c cs ih =>
    intro cur
    rw [List.cons_append]
    rw [splitWsGo, splitWsGo]
    by_cases hc : isPyWs c = true
    · rw [if_pos hc, if_pos hc]
      by_cases hcur : cur.isEmpty
      · rw [if_pos hcur, if_pos hcur, ih]
      · rw [if_neg hcur, if_neg hcur, ih]
    · rw [if_neg hc, if_neg hc, ih]

/-- With a non-whitespace head, `strip` removes exactly a whitespace
suffix. -/
theorem pyStrip_decomp (s : String) (hh : isPyWs (s.data.headD 'x') = false) :
    ∃ w, s.data = (pyStrip s).data ++ w ∧ ∀ c ∈ w, isPyWs c = true := by
  by_cases hne : s.data = []
  · refine ⟨[], ?_, by simp⟩
    unfold pyStrip
    rw [hne]
    rfl
  · unfold pyStrip
    rw [dropWhile_eq_self_head _ _ hne hh]
    refine ⟨(s.data.reverse.takeWhile isPyWs).reverse, ?_, ?_⟩
    · show s.data =
        (s.data.reverse.dropWhile isPyWs).reverse ++ (s.data.reverse.takeWhile isPyWs).reverse
      rw [← List.reverse_append, List.takeWhile_append_dropWhile, List.reverse_reverse]
    · intro c hc
      rw [List.mem_reverse] at hc
      exact List.mem_takeWhile_imp hc

/-- Tokenization of a stripped string equals tokenization of the original
(when the original has no leading whitespace). -/
theorem pySplitWs_strip (s : String) (hh : isPyWs (s.data.headD 'x') = false) :
    pySplitWs (pyStrip s) = pySplitWs s := by
  obtain ⟨w, hd, hw⟩ := pyStrip_decomp s hh
  unfold pySplitWs
  conv_rhs => rw [hd]
  rw [splitWsGo_ws_suffix w hw]

/-- The stripped string keeps at least the first nine characters when the
ninth is not whitespace. -/
theorem pyStrip_len_ge (s : String) (hh : isPyWs (s.data.headD 'x') = false)
    (c : Char) (h8 : s.data[8]? = some c) (hc : isPyWs c = false) :
    9 ≤ (pyStrip s).data.length := by
  obtain ⟨w, hd, hw⟩ := pyStrip_decomp s hh
  by_contra hlt
  push_neg at hlt
  rw [hd, List.getElem?_append] at h8
  rw [if_neg (by omega)] at h8
  exact absurd (hw c (mem_of_getElemQ h8)) (by simp [hc])

/-- Early characters survive stripping. -/
theorem pyStrip_getElem_eq (s : String) (hh : isPyWs (s.data.headD 'x') = false)
    (c8 : Char) (h8 : s.data[8]? = some c8) (hc8 : isPyWs c8 = false)
    (n : Nat) (hn : n < 9) : (pyStrip s).data[n]? = s.data[n]? := by
  obtain ⟨w, hd, hw⟩ := pyStrip_decomp s hh
  have hlen := pyStrip_len_ge s hh c8 h8 hc8
  conv_rhs => rw [hd]
  rw [List.getElem?_append, if_pos (by omega)]

/-- Early prefixes survive stripping. -/
theorem pyStrip_take_eq (s : String) (hh : isPyWs (s.data.headD 'x') = false)
    (c8 : Char) (h8 : s.data[8]? = some c8) (hc8 : isPyWs c8 = false)
    (n : Nat) (hn : n ≤ 9) : (pyStrip s).data.take n = s.data.take n := by
  obtain ⟨w, hd, hw⟩ := pyStrip_decomp s hh
  have hlen := pyStrip_len_ge s hh c8 h8 hc8
  conv_rhs => rw [hd]
  rw [List.take_append_of_le_length (by omega)]

/-- `_CMD_RX` matches as soon as one allow-listed name is a
case-insensitive prefix followed by a non-word character. -/
theorem cmdRxMatch_of_prefix (t : String) (q : String) (hq : q ∈ allowedCmdPrefixes)
    (hpre : (t.data.take q.length).map Char.toLower = q.data)
    (cb : Char) (hcb : t.data[q.length]? = some cb) (hw : isWordChar cb = false) :
    cmdRxMatch t = true := by
  unfold cmdRxMatch
  rw [List.any_eq_true]
  refine ⟨q, hq, ?_⟩
  simp only [decide_eq_true_eq]
  refine ⟨hpre, Or.inr ?_⟩
  have hhead : (t.data.drop q.length).head? = some cb := by
    rw [List.head?_eq_getElem?, List.getElem?_drop, Nat.add_zero]
    exact hcb
  cases hdrop : t.data.drop q.length with
  | nil => rw [hdrop] at hhead; simp at hhead
  | cons a rest =>
    rw [hdrop] at hhead
    simp only [List.head?] at hhead
    have : a = cb := by injection hhead
    subst this
    simp [hw]

/-- The command-shape check holds for any `prefix ++ tail` template whose
concrete prefix supplies two complete tokens, an allow-listed program name
at a word boundary, and a non-whitespace ninth character. -/
theorem looksLikeCmd_template (p tail : String)
    (hph : isPyWs (p.data.headD 'x') = false)
    (hplen : 9 ≤ p.data.length)
    (c8 : Char) (h8 : p.data[8]? = some c8) (hc8 : isPyWs c8 = false)
    (q : String) (hq : q ∈ allowedCmdPrefixes) (hql : q.length + 1 ≤ 9)
    (hpre : (p.data.take q.length).map Char.toLower = q.data)
    (cb : Char) (hcb : p.data[q.length]? = some cb) (hwb : isWordChar cb = false)
    (htok : 2 ≤ (splitWsGo (p.data ++ tail.data) []).length) :
    looksLikeCmd (p ++ tail) = true := by
  have hsd : (p ++ tail).data = p.data ++ tail.data := String.data_append p tail
  have hpne : p.data ≠ [] := by
    intro he
    rw [he] at hplen
    simp at hplen
  have hh : isPyWs ((p ++ tail).data.headD 'x') = false := by
    rw [hsd]
    cases hp : p.data with
    | nil => exact absurd hp hpne
    | cons a l =>
      rw [hp] at hph
      simpa using hph
  have h8' : (p ++ tail).data[8]? = some c8 := by
    rw [hsd, List.getElem?_append, if_pos (by omega)]
    exact h8
  have htake : ∀ n ≤ 9, (pyStrip (p ++ tail)).data.take n = p.data.take n := by
    intro n hn
    rw [pyStrip_take_eq _ hh c8 h8' hc8 n hn, hsd,
      List.take_append_of_le_length (by omega)]
  have hget : ∀ n < 9, (pyStrip (p ++ tail)).data[n]? = p.data[n]? := by
    intro n hn
    rw [pyStrip_getElem_eq _ hh c8 h8' hc8 n hn, hsd,
      List.getElem?_append, if_pos (by omega)]
  have htlen : 9 ≤ (pyStrip (p ++ tail)).data.length := pyStrip_len_ge _ hh c8 h8' hc8
  unfold looksLikeCmd
  simp only [Bool.and_eq_true, decide_eq_true_eq, gt_iff_lt]
  refine ⟨?_, ?_, ?_⟩
  · intro he
    have : (pyStrip (p ++ tail)).data = [] := by rw [he]
    rw [this] at htlen
    simp at htlen
  · rw [pySplitWs_strip _ hh]
    unfold pySplitWs
    rw [hsd]
    omega
  · refine cmdRxMatch_of_prefix _ q hq ?_ cb ?_ hwb
    · rw [htake q.length (by omega)]
      exact hpre
    · rw [hget q.length (by omega)]
      exact hcb

/-- A cons-cons decomposition bounds a list length below by two; used to
discharge token counts of command templates by unification. -/
theorem two_le_splitLen {l : List String} {a b : String} {t : List String}
    (h : l = a :: b :: t) : 2 ≤ l.length := by
  subst h
  simp only [List.length_cons]
  omega

/-- The filter/dedupe loop of `_normalize_cmds` returns a sublist of its
input, so order of first occurrence is preserved. -/
theorem normLoop_sublist : ∀ (ls seen : List String), (normLoop ls seen).Sublist ls
  | [], _ => by simp [normLoop]
  | l :: ls, seen => by
    simp only [normLoop]
    split_ifs with h1 h2
    · exact (normLoop_sublist ls seen).cons l
    · exact (normLoop_sublist ls (pyLower l :: seen)).cons₂ l
    · exact (normLoop_sublist ls seen).cons l

/-- Every command emitted by the filter/dedupe loop passed `_looks_like_cmd`. -/
theorem normLoop_all : ∀ (ls seen : List String), ∀ x ∈ normLoop ls seen,
    looksLikeCmd x = true
  | [], _ => by simp [normLoop]
  | l :: ls, seen => by
    simp only [normLoop]
    split_ifs with h1 h2
    · exact normLoop_all ls seen
    · intro x hx
      rcases List.mem_cons.mp hx with rfl | hx
      · exact h1
      · exact normLoop_all ls (pyLower l :: seen) x hx
    · exact normLoop_all ls seen

/-- Every command emitted by the loop has a lower-casing outside `seen`. -/
theorem normLoop_lower_notin : ∀ (ls seen : List String), ∀ x ∈ normLoop ls seen,
    ¬ pyLower x ∈ seen
  | [], _ => by simp [normLoop]
  | l :: ls, seen => by
    simp only [normLoop]
    split_ifs with h1 h2
    · exact normLoop_lower_notin ls seen
    · intro x hx
      rcases List.mem_cons.mp hx with rfl | hx
      · intro hmem
        exact h2 (by simpa using hmem)
      · intro hmem
        exact normLoop_lower_notin ls (pyLower l :: seen) x hx
          (List.mem_cons_of_mem _ hmem)
    · exact normLoop_lower_notin ls seen

/-- No two commands emitted by the loop share a lower-casing: the `seen`
set collapses case-insensitive duplicates. -/
theorem normLoop_pairwise : ∀ (ls seen : List String),
    List.Pairwise (fun a b => pyLower a ≠ pyLower b) (normLoop ls seen)
  | [], _ => by simp [normLoop]
  | l :: ls, seen => by
    simp only [normLoop]
    split_ifs with h1 h2
    · exact normLoop_pairwise ls seen
    · refine List.Pairwise.cons ?_ (normLoop_pairwise ls (pyLower l :: seen))
      intro b hb hcontra
      exact normLoop_lower_notin ls (pyLower l :: seen) b hb
        (hcontra ▸ List.mem_cons_self _ _)
    · exact normLoop_pairwise ls seen

/-- First nginx-branch fallback command passes `_looks_like_cmd` for every
service value. -/
theorem looksLikeCmd_fb1 (sv : JVal) :
    looksLikeCmd ("kubectl logs -l service=" ++ pyStr sv ++ " --tail=100") = true := by
  rw [String.append_assoc]
  exact looksLikeCmd_template "kubectl logs -l service=" (pyStr sv ++ " --tail=100")
    (by decide) (by decide) 'l' (by decide) (by decide)
    "kubectl" (by decide) (by decide) (by decide)
    ' ' (by decide) (by decide)
    (two_le_splitLen rfl)

/-- Second nginx-branch fallback command passes `_looks_like_cmd`. -/
theorem looksLikeCmd_fb2 (sv : JVal) :
    looksLikeCmd ("kubectl get services " ++ pyStr sv ++ " -o yaml") = true := by
  rw [String.append_assoc]
  exact looksLikeCmd_template "kubectl get services " (pyStr sv ++ " -o yaml")
    (by decide) (by decide) 'g' (by decide) (by decide)
    "kubectl" (by decide) (by decide) (by decide)
    ' ' (by decide) (by decide)
    (two_le_splitLen rfl)

/-- Third nginx-branch fallback command passes `_looks_like_cmd`. -/
theorem looksLikeCmd_fb3 (sv : JVal) :
    looksLikeCmd ("kubectl describe pod -l service=" ++ pyStr sv) = true :=
  looksLikeCmd_template "kubectl describe pod -l service=" (pyStr sv)
    (by decide) (by decide) 'd' (by decide) (by decide)
    "kubectl" (by decide) (by decide) (by decide)
    ' ' (by decide) (by decide)
    (two_le_splitLen rfl)

/-- First gcloud-branch fallback command passes `_looks_like_cmd`. -/
theorem looksLikeCmd_fbg1 (sv : JVal) :
    looksLikeCmd
      ("gcloud logging read 'resource.type=\"cloud_run_revision\" AND resource.labels.service_name=\""
        ++ pyStr sv ++ "\" AND severity>=\"ERROR\"' --limit=50 --format=json") = true := by
  rw [String.append_assoc]
  exact looksLikeCmd_template
    "gcloud logging read 'resource.type=\"cloud_run_revision\" AND resource.labels.service_name=\""
    (pyStr sv ++ "\" AND severity>=\"ERROR\"' --limit=50 --format=json")
    (by decide) (by decide) 'o' (by decide) (by decide)
    "gcloud" (by decide) (by decide) (by decide)
    ' ' (by decide) (by decide)
    (two_le_splitLen rfl)

/-- Second gcloud-branch fallback command passes `_looks_like_cmd` for every
service, region and project. -/
theorem looksLikeCmd_fbg2 (cfg : Config) (sv : JVal) :
    looksLikeCmd ("gcloud run services describe " ++ pyStr sv ++ " --region "
      ++ cfg.DEFAULT_REGION ++ " --project " ++ cfg.DEFAULT_PROJECT) = true := by
  simp only [String.append_assoc]
  exact looksLikeCmd_template "gcloud run services describe "
    (pyStr sv ++ (" --region " ++ (cfg.DEFAULT_REGION ++ (" --project " ++ cfg.DEFAULT_PROJECT))))
    (by decide) (by decide) 'u' (by decide) (by decide)
    "gcloud" (by decide) (by decide) (by decide)
    ' ' (by decide) (by decide)
    (two_le_splitLen rfl)

/-- The synthesized restart command of line 265 passes `_looks_like_cmd`. -/
theorem looksLikeCmd_restartCmd (sv : JVal) :
    looksLikeCmd (restartCmd sv) = true := by
  simp only [restartCmd]
  exact looksLikeCmd_template "kubectl rollout restart deployment/" (pyStr sv)
    (by decide) (by decide) 'r' (by decide) (by decide)
    "kubectl" (by decide) (by decide) (by decide)
    ' ' (by decide) (by decide)
    (two_le_splitLen rfl)

/-- Every synthesized fallback command passes `_looks_like_cmd`. -/
theorem fallback_all (cfg : Config) (service : JVal) (probable : String) :
    ∀ x ∈ fallbackCmds cfg service probable, looksLikeCmd x = true := by
  simp only [fallbackCmds]
  split_ifs with h
  · intro x hx
    simp only [List.mem_cons, List.not_mem_nil, or_false] at hx
    rcases hx with rfl | rfl | rfl | rfl
    · exact looksLikeCmd_fb1 service
    · exact looksLikeCmd_fb2 service
    · exact looksLikeCmd_fb3 service
    · decide
  · intro x hx
    simp only [List.mem_cons, List.not_mem_nil, or_false] at hx
    rcases hx with rfl | rfl | rfl
    · exact looksLikeCmd_fbg1 service
    · exact looksLikeCmd_fbg2 cfg service
    · decide

/-- Lower-casing a string with a concrete head segment: characters inside
the segment are read off the segment alone. -/
theorem pyLower_append_getElem (p t : String) (i : Nat) (hi : i < p.data.length) :
    (pyLower (p ++ t)).data[i]? = (p.data.map Char.toLower)[i]? := by
  show ((p ++ t).data.map Char.toLower)[i]? = _
  rw [String.data_append, List.map_append, List.getElem?_append,
    if_pos (by simpa using hi)]

/-- Two strings whose lower-casings differ at some position have different
lower-casings. -/
theorem strLowNe_of_getElem {a b : String} (i : Nat)
    (h : (pyLower a).data[i]? ≠ (pyLower b).data[i]?) : pyLower a ≠ pyLower b :=
  fun he => h (by rw [he])

/-- No two synthesized fallback commands share a lower-casing, whatever the
service, region and project values. -/
theorem fallback_pairwise (cfg : Config) (service : JVal) (probable : String) :
    List.Pairwise (fun a b => pyLower a ≠ pyLower b)
      (fallbackCmds cfg service probable) := by
  simp only [fallbackCmds]
  split_ifs with h
  · simp only [String.append_assoc]
    refine List.Pairwise.cons ?_ (List.Pairwise.cons ?_ (List.Pairwise.cons ?_
      (List.Pairwise.cons ?_ List.Pairwise.nil)))
    · intro b hb
      simp only [List.mem_cons, List.not_mem_nil, or_false] at hb
      rcases hb with rfl | rfl | rfl
      · exact strLowNe_of_getElem 8 (by
          rw [pyLower_append_getElem "kubectl logs -l service=" _ 8 (by decide),
            pyLower_append_getElem "kubectl get services " _ 8 (by decide)]
          decide)
      · exact strLowNe_of_getElem 8 (by
          rw [pyLower_append_getElem "kubectl logs -l service=" _ 8 (by decide),
            pyLower_append_getElem "kubectl describe pod -l service=" _ 8 (by decide)]
          decide)
      · exact strLowNe_of_getElem 0 (by
          rw [pyLower_append_getElem "kubectl logs -l service=" _ 0 (by decide)]
          decide)
    · intro b hb
      simp only [List.mem_cons, List.not_mem_nil, or_false] at hb
      rcases hb with rfl | rfl
      · exact strLowNe_of_getElem 8 (by
          rw [pyLower_append_getElem "kubectl get services " _ 8 (by decide),
            pyLower_append_getElem "kubectl describe pod -l service=" _ 8 (by decide)]
          decide)
      · exact strLowNe_of_getElem 0 (by
          rw [pyLower_append_getElem "kubectl get services " _ 0 (by decide)]
          decide)
    · intro b hb
      simp only [List.mem_cons, List.not_mem_nil, or_false] at hb
      rcases hb with rfl
      exact strLowNe_of_getElem 0 (by
        rw [pyLower_append_getElem "kubectl describe pod -l service=" _ 0 (by decide)]
        decide)
    · intro b hb
      exact absurd hb (List.not_mem_nil _)
  · simp only [String.append_assoc]
    refine List.Pairwise.cons ?_ (List.Pairwise.cons ?_ (List.Pairwise.cons ?_
      List.Pairwise.nil))
    · intro b hb
      simp only [List.mem_cons, List.not_mem_nil, or_false] at hb
      rcases hb with rfl | rfl
      · exact strLowNe_of_getElem 7 (by
          rw [pyLower_append_getElem
              "gcloud logging read 'resource.type=\"cloud_run_revision\" AND resource.labels.service_name=\""
              _ 7 (by decide),
            pyLower_append_getElem "gcloud run services describe " _ 7 (by decide)]
          decide)
      · exact strLowNe_of_getElem 0 (by
          rw [pyLower_append_getElem
              "gcloud logging read 'resource.type=\"cloud_run_revision\" AND resource.labels.service_name=\""
              _ 0 (by decide)]
          decide)
    · intro b hb
      simp only [List.mem_cons, List.not_mem_nil, or_false] at hb
      rcases hb with rfl
      exact strLowNe_of_getElem 0 (by
        rw [pyLower_append_getElem "gcloud run services describe " _ 0 (by decide)]
        decide)
    · intro b hb
      exact absurd hb (List.not_mem_nil _)

/-- After the weak-list fallback the command list has at least two
elements. -/
theorem cmdsBase_two_le (cfg : Config) (service : JVal) (probable : String)
    (raw : JVal) : 2 ≤ (cmdsBase cfg service probable raw).length := by
  simp only [cmdsBase]
  split_ifs with h
  · simp only [fallbackCmds]
    split_ifs <;> simp
  · omega

/-- After the weak-list fallback every command passes `_looks_like_cmd`. -/
theorem cmdsBase_all (cfg : Config) (service : JVal) (probable : String)
    (raw : JVal) : ∀ x ∈ cmdsBase cfg service probable raw, looksLikeCmd x = true := by
  simp only [cmdsBase]
  split_ifs with h
  · exact fallback_all cfg service probable
  · exact normLoop_all (strippedFragments raw) []

/-- After the weak-list fallback no two commands share a lower-casing. -/
theorem cmdsBase_pairwise (cfg : Config) (service : JVal) (probable : String)
    (raw : JVal) : List.Pairwise (fun a b => pyLower a ≠ pyLower b)
      (cmdsBase cfg service probable raw) := by
  simp only [cmdsBase]
  split_ifs with h
  · exact fallback_pairwise cfg service probable
  · exact normLoop_pairwise (strippedFragments raw) []

/-- A draft whose suggest_cmds list carries a command whose first token
merely begins with an allow-listed name (`kubectl-foo`), plus an upper-cased
copy of the restart command the P1 append will re-synthesize. -/
def c6draft : TriageDraft :=
  ⟨"", "s", "P1", "", "", "k", .arr [],
   .arr [.str "kubectl-foo a b", .str "KUBECTL ROLLOUT RESTART DEPLOYMENT/S",
         .str "kubectl get pods -A"],
   .null, [], none⟩

/-- C6 counterexample: the Decision's suggest_cmds may contain a command
whose first whitespace token (`kubectl-foo`) is not an allow-listed program
name (the regex only anchors an allow-listed name at a word boundary, so a
hyphenated continuation passes), and may contain a case-insensitive
duplicate pair: the drafted upper-case restart command survives dedupe, yet
the P1 append's case-sensitive substring test misses it and appends the
lower-case restart command again. -/
theorem c6_counterexample :
    (triage defaultConfig [] c6draft []).map (fun d => d.suggest_cmds) =
      .ok ["kubectl-foo a b", "KUBECTL ROLLOUT RESTART DEPLOYMENT/S",
           "kubectl get pods -A", "kubectl rollout restart deployment/s"] ∧
    (pySplitWs "kubectl-foo a b").headD "" = "kubectl-foo" ∧
    allowedCmdPrefixes.contains "kubectl-foo" = false ∧
    pyLower "KUBECTL ROLLOUT RESTART DEPLOYMENT/S" =
      pyLower "kubectl rollout restart deployment/s" :=
  ⟨rfl, rfl, rfl, rfl⟩

/-- C6 (amended): for every draft suggest_cmds value, draft priority,
probable cause and service, the command block of `triage` returns between
2 and 5 commands; every returned command passes `_looks_like_cmd` (it
begins, case-insensitively, with an allow-listed program name at a word
boundary — not necessarily as its whole first token — and has at least two
whitespace tokens); case-insensitive duplicates are collapsed in order of
first occurrence up to the weak-list fallback (the later restart append can
reintroduce one); and the dedupe loop preserves input order. -/
theorem c6_cmds_shape_amended (cfg : Config) (service : JVal)
    (probable draftPriority : String) (raw : JVal) :
    2 ≤ (cmdsStage cfg service probable draftPriority raw).length ∧
    (cmdsStage cfg service probable draftPriority raw).length ≤ 5 ∧
    (∀ x ∈ cmdsStage cfg service probable draftPriority raw,
      looksLikeCmd x = true) ∧
    List.Pairwise (fun a b => pyLower a ≠ pyLower b)
      (cmdsBase cfg service probable raw) ∧
    (normalizeCmds raw).Sublist (strippedFragments raw) := by
  have hb2 := cmdsBase_two_le cfg service probable raw
  have hball := cmdsBase_all cfg service probable raw
  refine ⟨?_, ?_, ?_, cmdsBase_pairwise cfg service probable raw,
    normLoop_sublist (strippedFragments raw) []⟩
  · simp only [cmdsStage]
    rw [List.length_take]
    split_ifs with h
    · rw [List.length_append]
      simp only [List.length_cons, List.length_nil]
      omega
    · omega
  · simp only [cmdsStage]
    rw [List.length_take]
    omega
  · simp only [cmdsStage]
    intro x hx
    have hx2 := List.take_subset _ _ hx
    split_ifs at hx2 with h
    · rcases List.mem_append.mp hx2 with hxa | hxb
      · exact hball x hxa
      · simp only [List.mem_cons, List.not_mem_nil, or_false] at hxb
        subst hxb
        exact looksLikeCmd_restartCmd service
    · exact hball x hx2
